import Mathlib

/-!
Formal model of `src/2DPowerLorentzianFitCeres.cc` (EpicChargeSharingAnalysis).

Conventions of the shallow embedding:

* C++ `double` values are modelled as exact rationals (`ℚ`).  Decimal literals
  of the source (`1.4826`, `1e-12`, ...) are taken at their decimal value.
  `ℚ` has no NaN and no infinity, so `std::isnan`-checks of the source are
  `False` and `std::isfinite`-checks are `True` in the model; each such spot
  carries a comment.
* `std::sqrt` is modelled by `sqrtQ`, a computable monotone-in-spirit rational
  square-root approximation (integer Newton iteration on numerator×denominator).
  No theorem below depends on the rounding of `sqrtQ`, only on `sqrtQ _ ≥ 0`
  where noted; it exists so every definition stays executable.
* `std::vector<double>` is `List ℚ`; `std::sort` / sorted `std::map` iteration
  are modelled with `List.insertionSort` / key-sorted association lists
  (deterministic sorted order, as for the C++ ordered containers).
* The Ceres solver and its covariance module are external capabilities
  (spec §6).  They are modelled as oracle functions (`Solver`, `CovOracle`)
  from a full description of the problem that the code hands to Ceres
  (points, per-point uncertainty, bounds, options, initial parameters) to a
  result; the code under verification is quantified over every oracle.
* C++ out-parameters that a failing function leaves unassigned are modelled
  by `Option`: `none` = "returned false, caller's variables untouched".
* The `verbose` flags only drive `std::cout` diagnostics and are dropped;
  the global mutex and one-time logging initialisation have no functional
  content in a sequential model and are not represented (spec §5).
* `Constants::ENABLE_VERTICAL_CHARGE_UNCERTAINTIES` and
  `Constants::MIN_UNCERTAINTY_VALUE` come from a configuration header that is
  not part of the sources; they are threaded through as an `EnvConfig`
  argument (spec §6 "configuration knobs").
-/

/-- Integer-square-root helper: one Newton step chain with explicit fuel, so
that the definition is structurally recursive and kernel-computable. -/
def isqrtGo (n : ℕ) : ℕ → ℕ → ℕ
  | x, 0 => x
  | x, fuel + 1 => if (x + n / x) / 2 < x then isqrtGo n ((x + n / x) / 2) fuel else x

/-- Computable integer square root (floor). -/
def isqrt (n : ℕ) : ℕ := if n ≤ 1 then n else isqrtGo n n n

/-- Model of `std::sqrt` on the rational embedding of `double`:
`sqrt (p/q) = sqrt (p*q) / q`, with the integer square root rounded down.
Nonnegative by construction; no claim below depends on its rounding. -/
def sqrtQ (q : ℚ) : ℚ := if q ≤ 0 then 0 else (isqrt (q.num.toNat * q.den) : ℚ) / (q.den : ℚ)

/-- `*std::min_element(l.begin(), l.end())` for a charge list (0 on `[]`,
which the source never queries). -/
def listMin : List ℚ → ℚ
  | [] => 0
  | h :: t => t.foldl min h

/-- `*std::max_element(l.begin(), l.end())`. -/
def listMax : List ℚ → ℚ
  | [] => 0
  | h :: t => t.foldl max h

/-- A sorted copy of the list (`std::sort` on `std::vector<double>`). -/
def sortedQ (l : List ℚ) : List ℚ := List.insertionSort (· ≤ ·) l

/-- `1e-12`, the numerical floor of the statistics code. -/
def epsQ : ℚ := 1e-12

/-- Median of the charges exactly as computed at lines 143–148 of the source:
even length averages the two middle entries of the sorted copy. -/
def medianQ (l : List ℚ) : ℚ :=
  let s := sortedQ l
  let n := l.length
  if n % 2 = 0 then (s.getD (n / 2 - 1) 0 + s.getD (n / 2) 0) / 2 else s.getD (n / 2) 0

/-- `sorted_y[n/4]` (line 150). -/
def q25Q (l : List ℚ) : ℚ := (sortedQ l).getD (l.length / 4) 0

/-- `sorted_y[3*n/4]` (line 151). -/
def q75Q (l : List ℚ) : ℚ := (sortedQ l).getD (3 * l.length / 4) 0

/-- `|val - median|` for every entry (lines 154–157). -/
def absDevsQ (l : List ℚ) : List ℚ := l.map (fun v => |v - medianQ l|)

/-- `abs_deviations[n/2] * 1.4826` (line 159): the raw MAD before the
numerical-stability safeguard. -/
def rawMadQ (l : List ℚ) : ℚ := (sortedQ (absDevsQ l)).getD (l.length / 2) 0 * 1.4826

/-- Mean of the charges (line 131). -/
def meanQ (l : List ℚ) : ℚ := l.sum / (l.length : ℚ)

/-- `sqrt(variance / n)` (lines 133–137). -/
def stdDevQ (l : List ℚ) : ℚ :=
  sqrtQ ((l.map (fun v => (v - meanQ l) * (v - meanQ l))).sum / (l.length : ℚ))

/-- MAD after the safeguard of lines 162–165.  The `!std::isfinite(mad)`
disjunct and the `std::isfinite(std_dev)` conjunct of the source are vacuous
on `ℚ` (every rational is finite). -/
def madQ (l : List ℚ) : ℚ :=
  if rawMadQ l < epsQ then (if epsQ < stdDevQ l then stdDevQ l else epsQ) else rawMadQ l

/-- `Σ max(0, y_i - q25)` restricted to positive weights (lines 168–177);
the `weight > 0` loop guard is kept although zero terms cancel. -/
def totalWeightQ (ys : List ℚ) : ℚ :=
  (ys.map (fun v => let w := max 0 (v - q25Q ys); if 0 < w then w else 0)).sum

/-- The weighted centroid of lines 168–186: positions weighted by the excess
charge over q25, falling back to the arithmetic mean of positions when the
total weight is not positive. -/
def weightedMeanQ (xs ys : List ℚ) : ℚ :=
  let num := ((xs.zip ys).map
    (fun p => let w := max 0 (p.2 - q25Q ys); if 0 < w then p.1 * w else 0)).sum
  if 0 < totalWeightQ ys then num / totalWeightQ ys else xs.sum / (xs.length : ℚ)

/-- `DataStatistics` (lines 104–115). -/
structure DataStatistics where
  mean : ℚ
  median : ℚ
  std_dev : ℚ
  mad : ℚ
  q25 : ℚ
  q75 : ℚ
  min_val : ℚ
  max_val : ℚ
  weighted_mean : ℚ
  total_weight : ℚ
  robust_center : ℚ
  valid : Bool
deriving DecidableEq

/-- The record of the early-return path (line 120 sets only `valid = false`;
the uninitialised `double` fields of the C++ struct are modelled as 0). -/
def invalidStats : DataStatistics :=
  { mean := 0, median := 0, std_dev := 0, mad := 0, q25 := 0, q75 := 0,
    min_val := 0, max_val := 0, weighted_mean := 0, total_weight := 0,
    robust_center := 0, valid := false }

/-- `CalculateRobustStatisticsPowerLorentzian` (lines 117–190). -/
def CalculateRobustStatisticsPowerLorentzian (x_vals y_vals : List ℚ) : DataStatistics :=
  if x_vals.length ≠ y_vals.length ∨ x_vals = [] then invalidStats
  else
    { mean := meanQ y_vals, median := medianQ y_vals, std_dev := stdDevQ y_vals,
      mad := madQ y_vals, q25 := q25Q y_vals, q75 := q75Q y_vals,
      min_val := listMin y_vals, max_val := listMax y_vals,
      weighted_mean := weightedMeanQ x_vals y_vals, total_weight := totalWeightQ y_vals,
      robust_center := weightedMeanQ x_vals y_vals, valid := true }

/-- `PowerLorentzianParameterEstimates` (lines 193–206).  The five `_err`
fields of the C++ struct are never written nor read by the source and are
omitted from the model. -/
structure PowerLorentzianParameterEstimates where
  amplitude : ℚ
  center : ℚ
  gamma : ℚ
  beta : ℚ
  baseline : ℚ
  valid : Bool
  method_used : ℕ
deriving DecidableEq

/-- Early-return estimates record (lines 216–218). -/
def invalidEstimates : PowerLorentzianParameterEstimates :=
  { amplitude := 0, center := 0, gamma := 0, beta := 0, baseline := 0,
    valid := false, method_used := 0 }

/-- Tier-1 baseline: `min(stats.min_val, stats.q25)` (line 236). -/
def tier1Baseline (st : DataStatistics) : ℚ := min st.min_val st.q25

/-- Tier-1 amplitude before the range floor: `max_val - baseline` (line 237). -/
def tier1Amp0 (st : DataStatistics) : ℚ := st.max_val - tier1Baseline st

/-- Tier-1 width from the charge-weighted second moment (lines 241–261):
weights are the excess over the tier-1 baseline, points contribute when the
weight exceeds 10% of the pre-floor amplitude, the raw width is
`sqrt(2·spread/weight_sum)` (or `0.7·pixel_spacing` when no point qualifies),
and the result is clamped to `[0.3, 3.0]·pixel_spacing`. -/
def tier1Gamma (xs ys : List ℚ) (pixel_spacing : ℚ) (st : DataStatistics) : ℚ :=
  let center := st.weighted_mean
  let baseline := tier1Baseline st
  let amp0 := tier1Amp0 st
  let sel := (xs.zip ys).filter (fun p => 0.1 * amp0 < max 0 (p.2 - baseline))
  let spread := (sel.map (fun p => max 0 (p.2 - baseline) * ((p.1 - center) * (p.1 - center)))).sum
  let wsum := (sel.map (fun p => max 0 (p.2 - baseline))).sum
  let g0 := if 0 < wsum then sqrtQ (2 * spread / wsum) else pixel_spacing * 0.7
  max (pixel_spacing * 0.3) (min (pixel_spacing * 3.0) g0)

/-- Tier-1 amplitude after the floor of line 262:
`max(max_val - baseline, 0.1·(max_val - min_val))`. -/
def tier1Amplitude (st : DataStatistics) : ℚ :=
  max (tier1Amp0 st) ((st.max_val - st.min_val) * 0.1)

/-- The full tier-1 ("physics-based") estimate, lines 234–263. -/
def tier1Estimate (xs ys : List ℚ) (pixel_spacing : ℚ) (st : DataStatistics) :
    PowerLorentzianParameterEstimates :=
  { amplitude := tier1Amplitude st, center := st.weighted_mean,
    gamma := tier1Gamma xs ys pixel_spacing st, beta := 1.0,
    baseline := tier1Baseline st, valid := true, method_used := 1 }

/-- Tier-1 acceptance (lines 265–267): `amplitude > 0 && gamma > 0` plus five
`!std::isnan` checks that are vacuously true on `ℚ`. -/
def tier1Accepts (xs ys : List ℚ) (pixel_spacing : ℚ) (st : DataStatistics) : Bool :=
  decide (0 < tier1Amplitude st) && decide (0 < tier1Gamma xs ys pixel_spacing st)

/-- The tier-2 ("robust statistical") estimate, lines 279–284. -/
def tier2Estimate (pixel_spacing : ℚ) (st : DataStatistics) :
    PowerLorentzianParameterEstimates :=
  { amplitude := st.q75 - st.q25, center := st.median,
    gamma := max st.mad (pixel_spacing * 0.5), beta := 1.0,
    baseline := st.q25, valid := true, method_used := 2 }

/-- Tier-2 acceptance (line 286): `amplitude > 0 && gamma > 0`. -/
def tier2Accepts (pixel_spacing : ℚ) (st : DataStatistics) : Bool :=
  decide (0 < st.q75 - st.q25) && decide (0 < max st.mad (pixel_spacing * 0.5))

/-- The tier-3 ("conservative fallback") estimate, lines 298–305; accepted
unconditionally. -/
def tier3Estimate (center_estimate pixel_spacing : ℚ) (st : DataStatistics) :
    PowerLorentzianParameterEstimates :=
  { amplitude := st.max_val, center := center_estimate,
    gamma := pixel_spacing * 0.7, beta := 1.0,
    baseline := 0.0, valid := true, method_used := 3 }

/-- `EstimatePowerLorentzianParameters` (lines 209–314): guard, statistics,
then the three tiers tried strictly in order with the first accepted tier
returned. -/
def EstimatePowerLorentzianParameters (x_vals y_vals : List ℚ)
    (center_estimate pixel_spacing : ℚ) : PowerLorentzianParameterEstimates :=
  if x_vals.length ≠ y_vals.length ∨ x_vals.length < 5 then invalidEstimates
  else
    let st := CalculateRobustStatisticsPowerLorentzian x_vals y_vals
    if st.valid = false then invalidEstimates
    else if tier1Accepts x_vals y_vals pixel_spacing st then
      tier1Estimate x_vals y_vals pixel_spacing st
    else if tier2Accepts pixel_spacing st then tier2Estimate pixel_spacing st
    else tier3Estimate center_estimate pixel_spacing st

/-- The points kept by one MAD-threshold pass (lines 339–346): the pairs whose
charge lies within `[lo, hi]`. -/
def keepPairs (xs ys : List ℚ) (lo hi : ℚ) : List (ℚ × ℚ) :=
  (xs.zip ys).filter (fun p => lo ≤ p.2 ∧ p.2 ≤ hi)

/-- The conservative pass of `FilterPowerLorentzianOutliers` at threshold `k`
(lines 334–346): keep charges within `median ± k·MAD` of the input profile. -/
def conservativePass (xs ys : List ℚ) (k : ℚ) : List (ℚ × ℚ) :=
  keepPairs xs ys
    ((CalculateRobustStatisticsPowerLorentzian xs ys).median
      - k * (CalculateRobustStatisticsPowerLorentzian xs ys).mad)
    ((CalculateRobustStatisticsPowerLorentzian xs ys).median
      + k * (CalculateRobustStatisticsPowerLorentzian xs ys).mad)

/-- The extreme-lenient retry pass (lines 355–367): same statistics of the
original input, threshold `4.0`. -/
def extremePass (xs ys : List ℚ) : List (ℚ × ℚ) :=
  keepPairs xs ys
    ((CalculateRobustStatisticsPowerLorentzian xs ys).median
      - 4.0 * (CalculateRobustStatisticsPowerLorentzian xs ys).mad)
    ((CalculateRobustStatisticsPowerLorentzian xs ys).median
      + 4.0 * (CalculateRobustStatisticsPowerLorentzian xs ys).mad)

/-- Threshold filtering including the lenient retry (lines 334–367): when the
first pass keeps fewer than `n / 2` points (integer division, line 349) the
original data is re-filtered at threshold 4.0. -/
def filterPass (xs ys : List ℚ) (k : ℚ) : List (ℚ × ℚ) :=
  let kept := conservativePass xs ys k
  if kept.length < xs.length / 2 then extremePass xs ys else kept

/-- What the filter returns when the spec's extreme-lenient re-filter of the
original data is taken, including the final `< 5` floor (lines 355–375). -/
def extremeRefilterResult (xs ys : List ℚ) : List ℚ × List ℚ :=
  let pass := extremePass xs ys
  if pass.length < 5 then (xs, ys) else (pass.map Prod.fst, pass.map Prod.snd)

/-- `FilterPowerLorentzianOutliers` (lines 317–383). -/
def FilterPowerLorentzianOutliers (x_vals y_vals : List ℚ) (sigma_threshold : ℚ) :
    List ℚ × List ℚ :=
  if x_vals.length ≠ y_vals.length ∨ x_vals.length < 5 then ([], [])
  else if (CalculateRobustStatisticsPowerLorentzian x_vals y_vals).valid = false then
    (x_vals, y_vals)
  else
    let pass := filterPass x_vals y_vals sigma_threshold
    if pass.length < 5 then (x_vals, y_vals) else (pass.map Prod.fst, pass.map Prod.snd)

/-- The configuration knobs of spec §6 that the source reads from
`Constants::` (a header outside the sources): whether vertical charge
uncertainties are enabled and the minimum uncertainty floor. -/
structure EnvConfig where
  enable_vertical_charge_uncertainties : Bool
  min_uncertainty_value : ℚ
deriving DecidableEq

/-- `CalculatePowerLorentzianUncertainty` (lines 29–38). -/
def CalculatePowerLorentzianUncertainty (env : EnvConfig) (max_charge_in_line : ℚ) : ℚ :=
  if env.enable_vertical_charge_uncertainties = false then 1.0
  else
    let u := 0.05 * max_charge_in_line
    if u < env.min_uncertainty_value then env.min_uncertainty_value else u

/-- `ceres::LinearSolverType` values used by the source. -/
inductive LinearSolverType where
  | denseQR
  | denseNormalCholesky
  | sparseNormalCholesky
deriving DecidableEq

/-- `ceres::TrustRegionStrategyType` values used by the source. -/
inductive TrustRegionStrategyType where
  | levenbergMarquardt
  | dogleg
deriving DecidableEq

/-- Solver termination status (spec §6: converged / not converged / failed);
`convergence` and `userSuccess` are the two values the source accepts. -/
inductive TerminationType where
  | convergence
  | userSuccess
  | noConvergence
  | failure
deriving DecidableEq

/-- `(summary.termination_type == ceres::CONVERGENCE || … USER_SUCCESS)`. -/
def terminationOk (t : TerminationType) : Bool :=
  decide (t = TerminationType.convergence) || decide (t = TerminationType.userSuccess)

/-- The 5-parameter vector `double parameters[5]`: A, m, gamma, beta, B. -/
structure Params5 where
  A : ℚ
  m : ℚ
  gamma : ℚ
  beta : ℚ
  B : ℚ
deriving DecidableEq

/-- A lower/upper bound pair set through `SetParameterLowerBound`/`…Upper…`. -/
structure ParamBounds where
  lo : ℚ
  hi : ℚ
deriving DecidableEq

/-- The `ceres::Solver::Options` fields the source sets (lines 570–580). -/
structure SolverOptions where
  linear_solver_type : LinearSolverType
  trust_region_strategy_type : TrustRegionStrategyType
  function_tolerance : ℚ
  gradient_tolerance : ℚ
  parameter_tolerance : ℚ
  max_num_iterations : ℕ
  max_num_consecutive_invalid_steps : ℕ
  use_nonmonotonic_steps : Bool
deriving DecidableEq

/-- One entry of the fixed configuration list, `PowerLorentzianFittingConfig`
(lines 461–469). -/
structure PowerLorentzianFittingConfig where
  linear_solver : LinearSolverType
  trust_region : TrustRegionStrategyType
  function_tolerance : ℚ
  gradient_tolerance : ℚ
  max_iterations : ℕ
  loss_function : String
  loss_parameter : ℚ
deriving DecidableEq

/-- The five configurations built at lines 471–521 for a given estimate. -/
def powerLorentzianConfigs (est : PowerLorentzianParameterEstimates) :
    List PowerLorentzianFittingConfig :=
  [ { linear_solver := .denseQR, trust_region := .levenbergMarquardt,
      function_tolerance := 1e-15, gradient_tolerance := 1e-15, max_iterations := 2000,
      loss_function := "HUBER", loss_parameter := est.amplitude * 0.1 },
    { linear_solver := .denseQR, trust_region := .levenbergMarquardt,
      function_tolerance := 1e-12, gradient_tolerance := 1e-12, max_iterations := 1500,
      loss_function := "CAUCHY", loss_parameter := est.amplitude * 0.16 },
    { linear_solver := .denseQR, trust_region := .dogleg,
      function_tolerance := 1e-10, gradient_tolerance := 1e-10, max_iterations := 1000,
      loss_function := "NONE", loss_parameter := 0.0 },
    { linear_solver := .denseNormalCholesky, trust_region := .levenbergMarquardt,
      function_tolerance := 1e-12, gradient_tolerance := 1e-12, max_iterations := 1500,
      loss_function := "HUBER", loss_parameter := est.amplitude * 0.13 },
    { linear_solver := .sparseNormalCholesky, trust_region := .levenbergMarquardt,
      function_tolerance := 1e-12, gradient_tolerance := 1e-12, max_iterations := 1200,
      loss_function := "CAUCHY", loss_parameter := est.amplitude * 0.22 } ]

/-- `options` as configured at lines 570–580 (`minimizer_type = TRUST_REGION`
and `minimizer_progress_to_stdout = false` are constant and not modelled). -/
def optionsOf (cfg : PowerLorentzianFittingConfig) : SolverOptions :=
  { linear_solver_type := cfg.linear_solver,
    trust_region_strategy_type := cfg.trust_region,
    function_tolerance := cfg.function_tolerance,
    gradient_tolerance := cfg.gradient_tolerance,
    parameter_tolerance := 1e-15,
    max_num_iterations := cfg.max_iterations,
    max_num_consecutive_invalid_steps := 50,
    use_nonmonotonic_steps := true }

/-- Everything one `ceres::Solve` invocation sees: the weighted residual
blocks (points and the shared uncertainty; `loss = none` models the
`nullptr` loss of `AddResidualBlock` at line 541), the per-parameter bounds,
the options and the initial parameter vector. -/
structure SolveCall where
  points : List (ℚ × ℚ)
  uncertainty : ℚ
  loss : Option String
  amp_bounds : ParamBounds
  center_bounds : ParamBounds
  gamma_bounds : ParamBounds
  beta_bounds : ParamBounds
  baseline_bounds : ParamBounds
  options : SolverOptions
  init : Params5
deriving DecidableEq

/-- What `ceres::Solve` leaves behind: a termination type, the final
parameter vector (written in place into `parameters[5]`) and
`summary.final_cost`. -/
structure SolveResult where
  termination : TerminationType
  params : Params5
  final_cost : ℚ
deriving DecidableEq

/-- The external nonlinear-least-squares capability (spec §6), as an oracle. -/
def Solver : Type := SolveCall → SolveResult

/-- `ceres::CovarianceAlgorithmType` values used at lines 653–658. -/
inductive CovarianceAlgorithmType where
  | denseSVD
  | sparseQR
deriving DecidableEq

/-- One covariance request (lines 660–671): algorithm, conditioning
threshold, the fixed `null_space_rank = 2` and `apply_loss_function = true`,
and the problem data. -/
structure CovCall where
  algorithm_type : CovarianceAlgorithmType
  min_reciprocal_condition_number : ℚ
  null_space_rank : ℕ
  apply_loss_function : Bool
  points : List (ℚ × ℚ)
  uncertainty : ℚ
  params : Params5
deriving DecidableEq

/-- The five diagonal entries of the 5×5 covariance block the source reads
(`covariance_matrix[0, 6, 12, 18, 24]`, lines 674–678). -/
structure CovMatrixDiag where
  c0 : ℚ
  c6 : ℚ
  c12 : ℚ
  c18 : ℚ
  c24 : ℚ
deriving DecidableEq

/-- The external covariance capability (spec §6): `none` models
`Covariance::Compute` or `GetCovarianceBlock` failing. -/
def CovOracle : Type := CovCall → Option CovMatrixDiag

/-- The four algorithm/threshold combinations of lines 653–658. -/
def covConfigList : List (CovarianceAlgorithmType × ℚ) :=
  [(.denseSVD, 1e-14), (.denseSVD, 1e-12), (.denseSVD, 1e-10), (.sparseQR, 1e-12)]

/-- The five 1σ uncertainties of a fit. -/
structure Uncertainties5 where
  amplitude_err : ℚ
  center_err : ℚ
  gamma_err : ℚ
  beta_err : ℚ
  vertical_offset_err : ℚ
deriving DecidableEq

/-- The covariance fallback chain of lines 651–690: the first attempt that
yields a matrix whose derived errors pass the sanity bounds
(`amplitude_err < 10·amplitude`, `center_err < 5·pixel_spacing`; the
`!std::isnan` checks are vacuous on `ℚ`) wins; `none` if all four fail. -/
def tryCovariance (cov : CovOracle) (pts : List (ℚ × ℚ)) (uncertainty : ℚ)
    (p : Params5) (fit_amplitude pixel_spacing : ℚ) :
    List (CovarianceAlgorithmType × ℚ) → Option Uncertainties5
  | [] => none
  | cc :: rest =>
    match cov { algorithm_type := cc.1, min_reciprocal_condition_number := cc.2,
                null_space_rank := 2, apply_loss_function := true,
                points := pts, uncertainty := uncertainty, params := p } with
    | some m =>
      let e : Uncertainties5 :=
        { amplitude_err := sqrtQ |m.c0|, center_err := sqrtQ |m.c6|,
          gamma_err := sqrtQ |m.c12|, beta_err := sqrtQ |m.c18|,
          vertical_offset_err := sqrtQ |m.c24| }
      if e.amplitude_err < 10.0 * fit_amplitude ∧ e.center_err < 5.0 * pixel_spacing then
        some e
      else tryCovariance cov pts uncertainty p fit_amplitude pixel_spacing rest
    | none => tryCovariance cov pts uncertainty p fit_amplitude pixel_spacing rest

/-- The heuristic fallback uncertainties of lines 693–700, from the robust
statistics of the accepted dataset. -/
def fallbackUncertainties (clean_x clean_y : List ℚ)
    (fit_amplitude fit_gamma fit_beta fit_vertical_offset pixel_spacing : ℚ) :
    Uncertainties5 :=
  let ds := CalculateRobustStatisticsPowerLorentzian clean_x clean_y
  { amplitude_err := max (0.02 * fit_amplitude) (0.1 * ds.mad),
    center_err := max (0.02 * pixel_spacing) (fit_gamma / 10.0),
    gamma_err := max (0.05 * fit_gamma) (0.01 * pixel_spacing),
    beta_err := max (0.1 * fit_beta) 0.05,
    vertical_offset_err := max (0.1 * |fit_vertical_offset|) (0.05 * ds.mad) }

/-- `std::max(Constants::MIN_UNCERTAINTY_VALUE, estimates.amplitude * 0.01)`
(line 545). -/
def ampMin (env : EnvConfig) (est : PowerLorentzianParameterEstimates) : ℚ :=
  max env.min_uncertainty_value (est.amplitude * 0.01)

/-- `min(max_charge·1.5, estimates.amplitude·100)` (lines 546–549). -/
def ampMax (est : PowerLorentzianParameterEstimates) (max_charge_val : ℚ) : ℚ :=
  min (max_charge_val * 1.5) (est.amplitude * 100.0)

/-- `max(estimates.amplitude·0.5, |estimates.baseline|·2.0)` (line 565). -/
def baselineRange (est : PowerLorentzianParameterEstimates) : ℚ :=
  max (est.amplitude * 0.5) (|est.baseline| * 2.0)

/-- The stage-1 solve call (lines 523–593): the bounds of lines 545–567 with
the beta bounds overridden to `[0.9, 1.1]` (lines 585–586), initial
parameters from the estimate, residual blocks with null loss. -/
def stage1Call (env : EnvConfig) (pts : List (ℚ × ℚ)) (max_charge_val uncertainty : ℚ)
    (est : PowerLorentzianParameterEstimates) (pixel_spacing : ℚ)
    (cfg : PowerLorentzianFittingConfig) : SolveCall :=
  { points := pts, uncertainty := uncertainty, loss := none,
    amp_bounds := { lo := ampMin env est, hi := ampMax est max_charge_val },
    center_bounds := { lo := est.center - pixel_spacing * 3.0,
                       hi := est.center + pixel_spacing * 3.0 },
    gamma_bounds := { lo := pixel_spacing * 0.05, hi := pixel_spacing * 4.0 },
    beta_bounds := { lo := 0.9, hi := 1.1 },
    baseline_bounds := { lo := est.baseline - baselineRange est,
                         hi := est.baseline + baselineRange est },
    options := optionsOf cfg,
    init := { A := est.amplitude, m := est.center, gamma := est.gamma,
              beta := est.beta, B := est.baseline } }

/-- The stage-2 solve call (lines 604–620): beta bounds restored to
`[0.2, 4.0]`, center bounds tightened to the stage-1 center
`± 0.5·pixel_spacing`, re-solved from the stage-1 parameters; all other
bounds of the problem stay as in stage 1. -/
def stage2Call (c1 : SolveCall) (s1params : Params5) (pixel_spacing : ℚ) : SolveCall :=
  { c1 with beta_bounds := { lo := 0.2, hi := 4.0 },
            center_bounds := { lo := s1params.m - pixel_spacing * 0.5,
                               hi := s1params.m + pixel_spacing * 0.5 },
            init := s1params }

/-- The single-stage fallback call (lines 621–631): beta bounds restored to
`[0.2, 4.0]`, original center bounds, starting from whatever the failed
stage-1 solve left in `parameters`. -/
def fallbackCall (c1 : SolveCall) (s1params : Params5) : SolveCall :=
  { c1 with beta_bounds := { lo := 0.2, hi := 4.0 }, init := s1params }

/-- The stage-1 success test (lines 596–601): convergence, `A > 0`,
`gamma > 0` and five `!std::isnan` checks (vacuous on `ℚ`). -/
def stage1Successful (r : SolveResult) : Bool :=
  terminationOk r.termination && decide (0 < r.params.A) && decide (0 < r.params.gamma)

/-- The final acceptance test (lines 634–640): convergence, `A > 0`,
`gamma > 0`, `0.1 < beta < 5.0`, and five `!std::isnan` checks (vacuous). -/
def fitAccepted (r : SolveResult) : Bool :=
  terminationOk r.termination && decide (0 < r.params.A) && decide (0 < r.params.gamma)
    && decide ((0.1 : ℚ) < r.params.beta) && decide (r.params.beta < (5.0 : ℚ))

/-- Everything the success branch of `FitPowerLorentzianCeres` (lines
642–719) computes: the reported parameters and uncertainties with the
reduced chi-square, plus — for the specification — the accepted dataset
(the C++ locals `clean_x`, `clean_y`) and `summary.final_cost`. -/
structure AcceptedFit where
  amplitude : ℚ
  center : ℚ
  gamma : ℚ
  beta : ℚ
  vertical_offset : ℚ
  amplitude_err : ℚ
  center_err : ℚ
  gamma_err : ℚ
  beta_err : ℚ
  vertical_offset_err : ℚ
  chi2red : ℚ
  clean_x : List ℚ
  clean_y : List ℚ
  final_cost : ℚ
deriving DecidableEq

/-- The result extraction of lines 642–706 for an accepted solve: reported
parameters (`gamma` through `std::abs`), the chosen uncertainties, and the
reduced chi-square `2 × final_cost / max(1, clean_x.size() − 5)`. -/
def acceptedRecord (summary : SolveResult) (clean_x clean_y : List ℚ)
    (errs : Uncertainties5) : AcceptedFit :=
  { amplitude := summary.params.A, center := summary.params.m,
    gamma := |summary.params.gamma|, beta := summary.params.beta,
    vertical_offset := summary.params.B,
    amplitude_err := errs.amplitude_err, center_err := errs.center_err,
    gamma_err := errs.gamma_err, beta_err := errs.beta_err,
    vertical_offset_err := errs.vertical_offset_err,
    chi2red := summary.final_cost * 2.0 / ((max 1 ((clean_x.length : ℤ) - 5) : ℤ) : ℚ),
    clean_x := clean_x, clean_y := clean_y, final_cost := summary.final_cost }

/-- One pass of the config loop body (lines 523–724) for one configuration:
two-stage solve, acceptance, uncertainties, reduced chi-square. -/
def attemptConfig (solver : Solver) (cov : CovOracle) (env : EnvConfig)
    (clean_x clean_y : List ℚ) (uncertainty : ℚ)
    (est : PowerLorentzianParameterEstimates) (pixel_spacing : ℚ)
    (cfg : PowerLorentzianFittingConfig) : Option AcceptedFit :=
  let pts := clean_x.zip clean_y
  let max_charge_val := listMax clean_y
  let c1 := stage1Call env pts max_charge_val uncertainty est pixel_spacing cfg
  let s1 := solver c1
  let summary :=
    if stage1Successful s1 then solver (stage2Call c1 s1.params pixel_spacing)
    else solver (fallbackCall c1 s1.params)
  if fitAccepted summary then
    let p := summary.params
    let errs :=
      match tryCovariance cov pts uncertainty p p.A pixel_spacing covConfigList with
      | some e => e
      | none => fallbackUncertainties clean_x clean_y p.A |p.gamma| p.beta p.B
          pixel_spacing
    some (acceptedRecord summary clean_x clean_y errs)
  else none

/-- The `for (const auto& config : configs)` loop (line 523): first
acceptance wins. -/
def tryConfigs (solver : Solver) (cov : CovOracle) (env : EnvConfig)
    (clean_x clean_y : List ℚ) (uncertainty : ℚ)
    (est : PowerLorentzianParameterEstimates) (pixel_spacing : ℚ) :
    List PowerLorentzianFittingConfig → Option AcceptedFit
  | [] => none
  | cfg :: rest =>
    match attemptConfig solver cov env clean_x clean_y uncertainty est pixel_spacing cfg with
    | some r => some r
    | none => tryConfigs solver cov env clean_x clean_y uncertainty est pixel_spacing rest

/-- The dataset loop of lines 437–725, generalised over the function that
builds the configuration list from the estimate (`powerLorentzianConfigs`
in the source); per dataset: size guard, parameter estimation, shared
uncertainty, then the configuration loop. -/
def tryDatasets (configsFun : PowerLorentzianParameterEstimates →
      List PowerLorentzianFittingConfig)
    (solver : Solver) (cov : CovOracle) (env : EnvConfig)
    (center_estimate pixel_spacing : ℚ) :
    List (List ℚ × List ℚ) → Option AcceptedFit
  | [] => none
  | d :: rest =>
    if d.1.length < 5 then
      tryDatasets configsFun solver cov env center_estimate pixel_spacing rest
    else
      let est := EstimatePowerLorentzianParameters d.1 d.2 center_estimate pixel_spacing
      if est.valid = false then
        tryDatasets configsFun solver cov env center_estimate pixel_spacing rest
      else
        let uncertainty := CalculatePowerLorentzianUncertainty env (listMax d.2)
        match tryConfigs solver cov env d.1 d.2 uncertainty est pixel_spacing
            (configsFun est) with
        | some r => some r
        | none => tryDatasets configsFun solver cov env center_estimate pixel_spacing rest

/-- The candidate-dataset list of lines 413–429: conservative- and
lenient-filtered variants (each kept only when ≥ 5 points survive) when
outlier filtering is enabled, then always the original data. -/
def candidateDatasets (x_vals y_vals : List ℚ) (enable_outlier_filtering : Bool) :
    List (List ℚ × List ℚ) :=
  (if enable_outlier_filtering then
    (let c := FilterPowerLorentzianOutliers x_vals y_vals 2.5
     if 5 ≤ c.1.length then [c] else []) ++
    (let l := FilterPowerLorentzianOutliers x_vals y_vals 3.0
     if 5 ≤ l.1.length then [l] else [])
  else []) ++ [(x_vals, y_vals)]

/-- `FitPowerLorentzianCeres` (lines 387–731), generalised over the
configuration-list builder.  `none` models `return false` with every
out-parameter left untouched. -/
def FitPowerLorentzianCeresGen (configsFun : PowerLorentzianParameterEstimates →
      List PowerLorentzianFittingConfig)
    (solver : Solver) (cov : CovOracle) (env : EnvConfig)
    (x_vals y_vals : List ℚ) (center_estimate pixel_spacing : ℚ)
    (enable_outlier_filtering : Bool) : Option AcceptedFit :=
  if x_vals.length ≠ y_vals.length ∨ x_vals.length < 5 then none
  else
    tryDatasets configsFun solver cov env center_estimate pixel_spacing
      (candidateDatasets x_vals y_vals enable_outlier_filtering)

/-- `FitPowerLorentzianCeres` with the configuration list actually built by
the source. -/
def FitPowerLorentzianCeres (solver : Solver) (cov : CovOracle) (env : EnvConfig)
    (x_vals y_vals : List ℚ) (center_estimate pixel_spacing : ℚ)
    (enable_outlier_filtering : Bool) : Option AcceptedFit :=
  FitPowerLorentzianCeresGen powerLorentzianConfigs solver cov env x_vals y_vals
    center_estimate pixel_spacing enable_outlier_filtering

/-- Overriding the robust-loss kind and scale of a configuration, for the
statement that those two fields are dead. -/
def setLoss (cfg : PowerLorentzianFittingConfig) (lf : String) (lp : ℚ) :
    PowerLorentzianFittingConfig :=
  { cfg with loss_function := lf, loss_parameter := lp }

/-- One raw sample: x and y coordinates and a charge. -/
structure Point3 where
  x : ℚ
  y : ℚ
  q : ℚ
deriving DecidableEq

/-- The three equal-length upstream sequences as a point list. -/
def zip3 : List ℚ → List ℚ → List ℚ → List Point3
  | x :: xs, y :: ys, q :: qs => ⟨x, y, q⟩ :: zip3 xs ys qs
  | _, _, _ => []

/-- Key-sorted association list of groups, modelling the
`std::map<double, std::vector<std::pair<double,double>>>` of lines 770–771
(iteration in ascending key order). -/
def GroupMap : Type := List (ℚ × List (ℚ × ℚ))

/-- First key (in ascending order) within `tolerance` of `key` — the
first-match search of lines 784–791. -/
def findGroupKey (groups : GroupMap) (key tolerance : ℚ) : Option ℚ :=
  (groups.find? (fun g => |g.1 - key| < tolerance)).map Prod.fst

/-- Append `v` to the group of exact key `k`, creating the group at its
sorted position when absent (`std::map::operator[]` + `push_back`). -/
def insertAt (k : ℚ) (v : ℚ × ℚ) : GroupMap → GroupMap
  | [] => [(k, [v])]
  | g :: rest =>
    if k < g.1 then (k, [v]) :: g :: rest
    else if k = g.1 then (g.1, g.2 ++ [v]) :: rest
    else g :: insertAt k v rest

/-- Add one sample to the groups: merge into the first group whose key is
within tolerance, else under its own key (lines 784–794). -/
def addGrouped (groups : GroupMap) (key : ℚ) (v : ℚ × ℚ) (tolerance : ℚ) : GroupMap :=
  match findGroupKey groups key tolerance with
  | some k => insertAt k v groups
  | none => insertAt key v groups

/-- `rows_data`: samples with positive charge grouped by y, the stored pair
being (x, charge) (lines 776–794). -/
def buildRows (pts : List Point3) (tolerance : ℚ) : GroupMap :=
  pts.foldl (fun g p => if p.q ≤ 0 then g else addGrouped g p.y (p.x, p.q) tolerance) []

/-- `cols_data`: samples with positive charge grouped by x, the stored pair
being (y, charge) (lines 796–807). -/
def buildCols (pts : List Point3) (tolerance : ℚ) : GroupMap :=
  pts.foldl (fun g p => if p.q ≤ 0 then g else addGrouped g p.x (p.y, p.q) tolerance) []

/-- Decimal value of `std::numeric_limits<double>::max()`, the initial
minimum distance of the selection loops (lines 812, 822). -/
def dblMax : ℚ := 1.7976931348623157e308

/-- The selection loop of lines 810–829: the key of the ≥5-point group
closest to the centre estimate, the estimate itself when none qualifies. -/
def selectClosestKey (groups : GroupMap) (center : ℚ) : ℚ :=
  (groups.foldl
    (fun acc g =>
      if |g.1 - center| < acc.2 ∧ 5 ≤ g.2.length then (g.1, |g.1 - center|) else acc)
    (center, dblMax)).1

/-- Exact-key lookup, `rows_data.find(best_row_y)` (line 835). -/
def lookupGroup (groups : GroupMap) (k : ℚ) : Option (List (ℚ × ℚ)) :=
  (groups.find? (fun g => g.1 = k)).map Prod.snd

/-- `std::sort` on `std::vector<std::pair<double,double>>`: lexicographic. -/
def sortPairs (l : List (ℚ × ℚ)) : List (ℚ × ℚ) :=
  List.insertionSort (fun p q => p.1 < q.1 ∨ (p.1 = q.1 ∧ p.2 ≤ q.2)) l

/-- The selected and sorted central-row data of lines 810–849 (`none` when
the x-direction branch of line 835 is not entered). -/
def selectedRowData (pts : List Point3) (center_y_estimate pixel_spacing : ℚ) :
    Option (List (ℚ × ℚ)) :=
  let rows := buildRows pts (pixel_spacing * 0.1)
  match lookupGroup rows (selectClosestKey rows center_y_estimate) with
  | some l => if 5 ≤ l.length then some (sortPairs l) else none
  | none => none

/-- The selected and sorted central-column data of lines 821–885. -/
def selectedColData (pts : List Point3) (center_x_estimate pixel_spacing : ℚ) :
    Option (List (ℚ × ℚ)) :=
  let cols := buildCols pts (pixel_spacing * 0.1)
  match lookupGroup cols (selectClosestKey cols center_x_estimate) with
  | some l => if 5 ≤ l.length then some (sortPairs l) else none
  | none => none

/-- Project a field of an optional accepted fit, 0 when the fit failed
(the by-reference out-parameters keep the default of the result struct). -/
def getQ (o : Option AcceptedFit) (f : AcceptedFit → ℚ) : ℚ :=
  match o with
  | some s => f s
  | none => 0

/-- `max_charge` loop of lines 915–918 / 924–927 (running max from 0.0). -/
def maxCharge0 (l : List (ℚ × ℚ)) : ℚ := l.foldl (fun m p => max m p.2) 0

/-- `PowerLorentzianFit2DResultsCeres`.  The struct lives in the header
`2DPowerLorentzianFitCeres.hh`, which is not among the sources; modelled
from the spec (§3 FitResult / Aggregate2DResult): per-axis parameters,
uncertainties, reduced chi-square, dof, pseudo-p-value, stored profile
data, charge uncertainties and the overall success flag, default-initialised
to zeros / `false` / empty. -/
structure PowerLorentzianFit2DResultsCeres where
  x_amplitude : ℚ := 0
  x_center : ℚ := 0
  x_gamma : ℚ := 0
  x_beta : ℚ := 0
  x_vertical_offset : ℚ := 0
  x_amplitude_err : ℚ := 0
  x_center_err : ℚ := 0
  x_gamma_err : ℚ := 0
  x_beta_err : ℚ := 0
  x_vertical_offset_err : ℚ := 0
  x_chi2red : ℚ := 0
  x_dof : ℤ := 0
  x_pp : ℚ := 0
  y_amplitude : ℚ := 0
  y_center : ℚ := 0
  y_gamma : ℚ := 0
  y_beta : ℚ := 0
  y_vertical_offset : ℚ := 0
  y_amplitude_err : ℚ := 0
  y_center_err : ℚ := 0
  y_gamma_err : ℚ := 0
  y_beta_err : ℚ := 0
  y_vertical_offset_err : ℚ := 0
  y_chi2red : ℚ := 0
  y_dof : ℤ := 0
  y_pp : ℚ := 0
  x_row_pixel_coords : List ℚ := []
  x_row_charge_values : List ℚ := []
  x_row_charge_errors : List ℚ := []
  y_col_pixel_coords : List ℚ := []
  y_col_charge_values : List ℚ := []
  y_col_charge_errors : List ℚ := []
  x_charge_uncertainty : ℚ := 0
  y_charge_uncertainty : ℚ := 0
  fit_successful : Bool := false
deriving DecidableEq

/-- `Fit2DPowerLorentzianCeres` (lines 733–942).  The Ceres-logging
initialisation and the serialization mutex have no functional content in a
sequential model and are not represented. -/
def Fit2DPowerLorentzianCeres (solver : Solver) (cov : CovOracle) (env : EnvConfig)
    (x_coords y_coords charge_values : List ℚ)
    (center_x_estimate center_y_estimate pixel_spacing : ℚ)
    (enable_outlier_filtering : Bool) : PowerLorentzianFit2DResultsCeres :=
  if x_coords.length ≠ y_coords.length ∨ x_coords.length ≠ charge_values.length then {}
  else if x_coords.length < 5 then {}
  else
    let pts := zip3 x_coords y_coords charge_values
    let rowOpt := selectedRowData pts center_y_estimate pixel_spacing
    let colOpt := selectedColData pts center_x_estimate pixel_spacing
    let xFit :=
      match rowOpt with
      | some l => FitPowerLorentzianCeres solver cov env (l.map Prod.fst) (l.map Prod.snd)
          center_x_estimate pixel_spacing enable_outlier_filtering
      | none => none
    let yFit :=
      match colOpt with
      | some l => FitPowerLorentzianCeres solver cov env (l.map Prod.fst) (l.map Prod.snd)
          center_y_estimate pixel_spacing enable_outlier_filtering
      | none => none
    { x_amplitude := getQ xFit (fun s => s.amplitude),
      x_center := getQ xFit (fun s => s.center),
      x_gamma := getQ xFit (fun s => s.gamma),
      x_beta := getQ xFit (fun s => s.beta),
      x_vertical_offset := getQ xFit (fun s => s.vertical_offset),
      x_amplitude_err := getQ xFit (fun s => s.amplitude_err),
      x_center_err := getQ xFit (fun s => s.center_err),
      x_gamma_err := getQ xFit (fun s => s.gamma_err),
      x_beta_err := getQ xFit (fun s => s.beta_err),
      x_vertical_offset_err := getQ xFit (fun s => s.vertical_offset_err),
      x_chi2red := getQ xFit (fun s => s.chi2red),
      x_dof := match rowOpt with
        | some l => max 1 ((l.length : ℤ) - 5)
        | none => 0,
      x_pp := match rowOpt with
        | some _ =>
          if 0 < getQ xFit (fun s => s.chi2red) then
            1.0 - min 1.0 (getQ xFit (fun s => s.chi2red) / 10.0)
          else 0.0
        | none => 0,
      y_amplitude := getQ yFit (fun s => s.amplitude),
      y_center := getQ yFit (fun s => s.center),
      y_gamma := getQ yFit (fun s => s.gamma),
      y_beta := getQ yFit (fun s => s.beta),
      y_vertical_offset := getQ yFit (fun s => s.vertical_offset),
      y_amplitude_err := getQ yFit (fun s => s.amplitude_err),
      y_center_err := getQ yFit (fun s => s.center_err),
      y_gamma_err := getQ yFit (fun s => s.gamma_err),
      y_beta_err := getQ yFit (fun s => s.beta_err),
      y_vertical_offset_err := getQ yFit (fun s => s.vertical_offset_err),
      y_chi2red := getQ yFit (fun s => s.chi2red),
      y_dof := match colOpt with
        | some l => max 1 ((l.length : ℤ) - 5)
        | none => 0,
      y_pp := match colOpt with
        | some _ =>
          if 0 < getQ yFit (fun s => s.chi2red) then
            1.0 - min 1.0 (getQ yFit (fun s => s.chi2red) / 10.0)
          else 0.0
        | none => 0,
      x_row_pixel_coords := match rowOpt with
        | some l => l.map Prod.fst
        | none => [],
      x_row_charge_values := match rowOpt with
        | some l => l.map Prod.snd
        | none => [],
      x_row_charge_errors := [],
      y_col_pixel_coords := match colOpt with
        | some l => l.map Prod.fst
        | none => [],
      y_col_charge_values := match colOpt with
        | some l => l.map Prod.snd
        | none => [],
      y_col_charge_errors := [],
      x_charge_uncertainty :=
        if env.enable_vertical_charge_uncertainties then
          match rowOpt with
          | some l => if xFit.isSome then 0.05 * maxCharge0 l else 0
          | none => 0
        else 0,
      y_charge_uncertainty :=
        if env.enable_vertical_charge_uncertainties then
          match colOpt with
          | some l => if yFit.isSome then 0.05 * maxCharge0 l else 0
          | none => 0
        else 0,
      fit_successful := xFit.isSome && yFit.isSome }

/-- `PowerLorentzianOutlierRemovalResult`.  The struct lives in the header,
not among the sources; modelled from the spec (§3 OutlierRemovalResult):
filtered coordinate/charge sequences, count removed, filtering_applied flag,
success flag, default-initialised to empty / 0 / `false`. -/
structure PowerLorentzianOutlierRemovalResult where
  filtered_x_coords : List ℚ := []
  filtered_y_coords : List ℚ := []
  filtered_charge_values : List ℚ := []
  outliers_removed : ℕ := 0
  filtering_applied : Bool := false
  success : Bool := false
deriving DecidableEq

/-- A removal result that passes the input through unchanged. -/
def passThroughRemoval (x_coords y_coords charge_values : List ℚ) (succ : Bool) :
    PowerLorentzianOutlierRemovalResult :=
  { filtered_x_coords := x_coords, filtered_y_coords := y_coords,
    filtered_charge_values := charge_values, outliers_removed := 0,
    filtering_applied := false, success := succ }

/-- The per-sample outlier flag of lines 997–1008:
`|charge - median| > sigma_threshold · MAD`. -/
def chargeFlagged (median mad sigma_threshold : ℚ) (q : ℚ) : Bool :=
  decide (sigma_threshold * mad < |q - median|)

/-- `RemovePowerLorentzianOutliers` (lines 945–1046). -/
def RemovePowerLorentzianOutliers (x_coords y_coords charge_values : List ℚ)
    (enable_outlier_removal : Bool) (sigma_threshold : ℚ) :
    PowerLorentzianOutlierRemovalResult :=
  if x_coords.length ≠ y_coords.length ∨ x_coords.length ≠ charge_values.length then {}
  else if enable_outlier_removal = false then
    passThroughRemoval x_coords y_coords charge_values true
  else if charge_values.length < 5 then
    passThroughRemoval x_coords y_coords charge_values true
  else
    let stats := CalculateRobustStatisticsPowerLorentzian x_coords charge_values
    if stats.valid = false then passThroughRemoval x_coords y_coords charge_values false
    else
      let flag := chargeFlagged stats.median stats.mad sigma_threshold
      let outlier_count := charge_values.countP flag
      if charge_values.length - outlier_count < 5 then
        passThroughRemoval x_coords y_coords charge_values true
      else
        let kept := (zip3 x_coords y_coords charge_values).filter (fun p => !flag p.q)
        { filtered_x_coords := kept.map (fun p => p.x),
          filtered_y_coords := kept.map (fun p => p.y),
          filtered_charge_values := kept.map (fun p => p.q),
          outliers_removed := outlier_count, filtering_applied := true, success := true }

/-- The points classified onto the main diagonal with their projected 1-D
coordinate (lines 1112–1127): positive charge, `|dx - dy| < tolerance`,
coordinate `(dx + dy)/2`.  The source builds `main_diag_x_data` and
`main_diag_y_data` as two identical copies of this list. -/
def mainDiagData (pts : List Point3) (center_x_estimate center_y_estimate tolerance : ℚ) :
    List (ℚ × ℚ) :=
  pts.filterMap (fun p =>
    if p.q ≤ 0 then none
    else
      let dx := p.x - center_x_estimate
      let dy := p.y - center_y_estimate
      if |dx - dy| < tolerance then some ((dx + dy) / 2, p.q) else none)

/-- The secondary-diagonal points (lines 1129–1134): `|dx + dy| < tolerance`,
coordinate `(dx - dy)/2`. -/
def secDiagData (pts : List Point3) (center_x_estimate center_y_estimate tolerance : ℚ) :
    List (ℚ × ℚ) :=
  pts.filterMap (fun p =>
    if p.q ≤ 0 then none
    else
      let dx := p.x - center_x_estimate
      let dy := p.y - center_y_estimate
      if |dx + dy| < tolerance then some ((dx - dy) / 2, p.q) else none)

/-- One diagonal sub-fit report (the `main_diag_x_*` etc. field blocks of
the header struct, grouped; the header keeps them flat). -/
structure DiagFitPart where
  amplitude : ℚ := 0
  center : ℚ := 0
  gamma : ℚ := 0
  beta : ℚ := 0
  vertical_offset : ℚ := 0
  amplitude_err : ℚ := 0
  center_err : ℚ := 0
  gamma_err : ℚ := 0
  beta_err : ℚ := 0
  vertical_offset_err : ℚ := 0
  chi2red : ℚ := 0
  dof : ℤ := 0
  pp : ℚ := 0
  fit_successful : Bool := false
deriving DecidableEq

/-- One diagonal branch of lines 1138–1239: when ≥ 5 classified points
exist, sort them, run the 1-D fit with centre estimate `0.0` and the
√2-scaled pixel spacing, and fill the report; otherwise every field keeps
its default. -/
def runDiagFit (solver : Solver) (cov : CovOracle) (env : EnvConfig)
    (data : List (ℚ × ℚ)) (diag_pixel_spacing : ℚ)
    (enable_outlier_filtering : Bool) : DiagFitPart :=
  if 5 ≤ data.length then
    let s := sortPairs data
    let f := FitPowerLorentzianCeres solver cov env (s.map Prod.fst) (s.map Prod.snd)
      0.0 diag_pixel_spacing enable_outlier_filtering
    { amplitude := getQ f (fun r => r.amplitude),
      center := getQ f (fun r => r.center),
      gamma := getQ f (fun r => r.gamma),
      beta := getQ f (fun r => r.beta),
      vertical_offset := getQ f (fun r => r.vertical_offset),
      amplitude_err := getQ f (fun r => r.amplitude_err),
      center_err := getQ f (fun r => r.center_err),
      gamma_err := getQ f (fun r => r.gamma_err),
      beta_err := getQ f (fun r => r.beta_err),
      vertical_offset_err := getQ f (fun r => r.vertical_offset_err),
      chi2red := getQ f (fun r => r.chi2red),
      dof := max 1 ((s.length : ℤ) - 5),
      pp := if 0 < getQ f (fun r => r.chi2red) then
          1.0 - min 1.0 (getQ f (fun r => r.chi2red) / 10.0)
        else 0.0,
      fit_successful := f.isSome }
  else {}

/-- `DiagonalPowerLorentzianFitResultsCeres` (header, not among the sources;
modelled from the spec §3 DiagonalResult): four sub-fit reports and the
overall success flag. -/
structure DiagonalPowerLorentzianFitResultsCeres where
  main_diag_x : DiagFitPart := {}
  main_diag_y : DiagFitPart := {}
  sec_diag_x : DiagFitPart := {}
  sec_diag_y : DiagFitPart := {}
  fit_successful : Bool := false
deriving DecidableEq

/-- The optionally outlier-filtered point set of lines 1085–1099: the
removal result replaces the inputs only when it succeeded and was applied. -/
def diagFilteredPoints (x_coords y_coords charge_values : List ℚ)
    (enable_outlier_filtering : Bool) : List ℚ × List ℚ × List ℚ :=
  if enable_outlier_filtering then
    let fr := RemovePowerLorentzianOutliers x_coords y_coords charge_values true 2.5
    if fr.success && fr.filtering_applied then
      (fr.filtered_x_coords, fr.filtered_y_coords, fr.filtered_charge_values)
    else (x_coords, y_coords, charge_values)
  else (x_coords, y_coords, charge_values)

/-- `FitDiagonalPowerLorentzianCeres` (lines 1049–1254). -/
def FitDiagonalPowerLorentzianCeres (solver : Solver) (cov : CovOracle) (env : EnvConfig)
    (x_coords y_coords charge_values : List ℚ)
    (center_x_estimate center_y_estimate pixel_spacing : ℚ)
    (enable_outlier_filtering : Bool) : DiagonalPowerLorentzianFitResultsCeres :=
  if x_coords.length ≠ y_coords.length ∨ x_coords.length ≠ charge_values.length then {}
  else if x_coords.length < 5 then {}
  else
    let f := diagFilteredPoints x_coords y_coords charge_values enable_outlier_filtering
    let pts := zip3 f.1 f.2.1 f.2.2
    let diag_pixel_spacing := pixel_spacing * 1.41421356237
    let tolerance := pixel_spacing * 0.5
    let mainData := mainDiagData pts center_x_estimate center_y_estimate tolerance
    let secData := secDiagData pts center_x_estimate center_y_estimate tolerance
    let mx := runDiagFit solver cov env mainData diag_pixel_spacing enable_outlier_filtering
    let my := runDiagFit solver cov env mainData diag_pixel_spacing enable_outlier_filtering
    let sx := runDiagFit solver cov env secData diag_pixel_spacing enable_outlier_filtering
    let sy := runDiagFit solver cov env secData diag_pixel_spacing enable_outlier_filtering
    { main_diag_x := mx, main_diag_y := my, sec_diag_x := sx, sec_diag_y := sy,
      fit_successful := mx.fit_successful && my.fit_successful
        && sx.fit_successful && sy.fit_successful }

/-- Whether the x-direction branch of the 2-D coordinator ends in a
successful fit: a ≥5-point central row was selected and the 1-D orchestrator
accepted it. -/
def xAxisFitSucceeds (solver : Solver) (cov : CovOracle) (env : EnvConfig)
    (x_coords y_coords charge_values : List ℚ)
    (center_x_estimate center_y_estimate pixel_spacing : ℚ)
    (enable_outlier_filtering : Bool) : Bool :=
  match selectedRowData (zip3 x_coords y_coords charge_values) center_y_estimate
      pixel_spacing with
  | some l => (FitPowerLorentzianCeres solver cov env (l.map Prod.fst) (l.map Prod.snd)
      center_x_estimate pixel_spacing enable_outlier_filtering).isSome
  | none => false

/-- Whether the y-direction branch ends in a successful fit. -/
def yAxisFitSucceeds (solver : Solver) (cov : CovOracle) (env : EnvConfig)
    (x_coords y_coords charge_values : List ℚ)
    (center_x_estimate center_y_estimate pixel_spacing : ℚ)
    (enable_outlier_filtering : Bool) : Bool :=
  match selectedColData (zip3 x_coords y_coords charge_values) center_x_estimate
      pixel_spacing with
  | some l => (FitPowerLorentzianCeres solver cov env (l.map Prod.fst) (l.map Prod.snd)
      center_y_estimate pixel_spacing enable_outlier_filtering).isSome
  | none => false

/-- Whether one diagonal sub-fit succeeds on its classified data. -/
def diagDataFitSucceeds (solver : Solver) (cov : CovOracle) (env : EnvConfig)
    (data : List (ℚ × ℚ)) (diag_pixel_spacing : ℚ)
    (enable_outlier_filtering : Bool) : Bool :=
  if 5 ≤ data.length then
    let s := sortPairs data
    (FitPowerLorentzianCeres solver cov env (s.map Prod.fst) (s.map Prod.snd) 0.0
      diag_pixel_spacing enable_outlier_filtering).isSome
  else false

/-- A solver oracle that reports convergence at the initial parameters with
final cost 1 — one admissible behaviour of the external capability, used for
concrete instances. -/
def constSolver : Solver := fun c =>
  { termination := TerminationType.convergence, params := c.init, final_cost := 1 }

/-- A solver oracle that never converges, used for concrete instances. -/
def failSolver : Solver := fun c =>
  { termination := TerminationType.noConvergence, params := c.init, final_cost := 0 }

/-- A covariance oracle whose computation always fails, driving the
heuristic fallback uncertainties. -/
def covNone : CovOracle := fun _ => none

/-- Environment with vertical charge uncertainties disabled. -/
def env0 : EnvConfig :=
  { enable_vertical_charge_uncertainties := false, min_uncertainty_value := 1e-6 }

/-- Positions of the idempotence counterexample profile. -/
def c5X : List ℚ := [1, 2, 3, 4, 5, 6, 7, 8, 9, 10, 11, 12]

/-- Charges of the idempotence counterexample profile: a moderate outlier
(26) that survives the first conservative pass but not the second. -/
def c5Y : List ℚ := [0, 2, 4, 6, 8, 10, 12, 26, 1000, 1001, 1002, 1003]

/-- X coordinates of the chi-square/dof counterexample cloud (one row). -/
def c6X : List ℚ := [1, 2, 3, 4, 5, 6, 7, 8, 9, 10, 11, 12]

/-- Y coordinates of the chi-square/dof counterexample cloud: all on y = 0,
so the 2-D grouping forms a single 12-point row. -/
def c6Y : List ℚ := [0, 0, 0, 0, 0, 0, 0, 0, 0, 0, 0, 0]

/-- Charges of the chi-square/dof counterexample cloud: the conservative
outlier filter keeps only the first 8, so the accepted dataset has 8 points
while the selected row has 12. -/
def c6Q : List ℚ := [1, 3, 5, 7, 9, 11, 13, 27, 1001, 1002, 1003, 1004]

/-! ## Helper lemmas -/

theorem calcStats_eq (xs ys : List ℚ) (hlen : xs.length = ys.length) (hne : xs ≠ []) :
    CalculateRobustStatisticsPowerLorentzian xs ys =
      { mean := meanQ ys, median := medianQ ys, std_dev := stdDevQ ys, mad := madQ ys,
        q25 := q25Q ys, q75 := q75Q ys, min_val := listMin ys, max_val := listMax ys,
        weighted_mean := weightedMeanQ xs ys, total_weight := totalWeightQ ys,
        robust_center := weightedMeanQ xs ys, valid := true } := by
  unfold CalculateRobustStatisticsPowerLorentzian
  rw [if_neg]
  push_neg
  exact ⟨hlen, hne⟩

theorem stats_valid_iff (xs ys : List ℚ) :
    (CalculateRobustStatisticsPowerLorentzian xs ys).valid = true ↔
      xs.length = ys.length ∧ xs ≠ [] := by
  by_cases h : xs.length = ys.length ∧ xs ≠ []
  · rw [calcStats_eq xs ys h.1 h.2]
    simpa using h
  · unfold CalculateRobustStatisticsPowerLorentzian
    rw [if_pos]
    · simp [invalidStats, h]
    · tauto

theorem madQ_ge_eps (l : List ℚ) : epsQ ≤ madQ l := by
  unfold madQ
  split_ifs with h1 h2
  · exact le_of_lt h2
  · exact le_refl _
  · exact not_lt.mp h1

theorem epsQ_pos : 0 < epsQ := by norm_num [epsQ]

/-- Filtering pairs on a predicate of the second component keeps as many
pairs as the predicate keeps second components. -/
theorem length_filter_zip_snd {α β : Type} (p : β → Bool) :
    ∀ (xs : List α) (ys : List β), xs.length = ys.length →
      ((xs.zip ys).filter (fun pr => p pr.2)).length = (ys.filter p).length
  | [], [], _ => rfl
  | [], _ :: _, h => by simp at h
  | _ :: _, [], h => by simp at h
  | a :: xs, b :: ys, h => by
    simp only [List.zip_cons_cons, List.filter_cons]
    cases hpb : p b <;>
      simp [length_filter_zip_snd p xs ys (by simpa using h), hpb]

theorem sortedAbsDevs_getD_nonneg (l : List ℚ) (i : ℕ) :
    0 ≤ (sortedQ (absDevsQ l)).getD i 0 := by
  by_cases h : i < (sortedQ (absDevsQ l)).length
  · rw [List.getD_eq_getElem _ _ h]
    have hmem : (sortedQ (absDevsQ l))[i] ∈ sortedQ (absDevsQ l) := List.getElem_mem h
    have hmem2 : (sortedQ (absDevsQ l))[i] ∈ absDevsQ l :=
      (List.mem_insertionSort _).mp hmem
    obtain ⟨v, _, hv⟩ := List.mem_map.mp hmem2
    rw [← hv]
    exact abs_nonneg _
  · rw [List.getD_eq_default _ _ (not_lt.mp h)]

/-- In a sorted list, at least `m + 1` entries are at most the entry at
index `m`. -/
theorem sorted_countP_le_getD (s : List ℚ) (hs : List.Sorted (· ≤ ·) s) (m : ℕ)
    (hm : m < s.length) :
    m + 1 ≤ s.countP (fun a => decide (a ≤ s.getD m 0)) := by
  have hd : s.getD m 0 = s[m] := List.getD_eq_getElem s 0 hm
  have htakelen : (s.take (m + 1)).length = m + 1 := by
    rw [List.length_take]
    omega
  have htake : (s.take (m + 1)).countP (fun a => decide (a ≤ s.getD m 0)) = m + 1 := by
    rw [List.countP_eq_length.mpr, htakelen]
    intro a ha
    obtain ⟨i, hi, hia⟩ := List.mem_iff_getElem.mp ha
    have him : i ≤ m := by
      rw [htakelen] at hi
      omega
    have hil : i < s.length := by omega
    have hsi : s[i] ≤ s[m] := by
      rcases eq_or_lt_of_le him with h | h
      · subst h
        exact le_refl _
      · exact List.pairwise_iff_getElem.mp hs i m hil hm h
    rw [← hia]
    simp only [List.getElem_take, hd]
    exact decide_eq_true hsi
  calc m + 1 = (s.take (m + 1)).countP (fun a => decide (a ≤ s.getD m 0)) := htake.symm
    _ ≤ (s.take (m + 1)).countP (fun a => decide (a ≤ s.getD m 0))
        + (s.drop (m + 1)).countP (fun a => decide (a ≤ s.getD m 0)) := Nat.le_add_right _ _
    _ = s.countP (fun a => decide (a ≤ s.getD m 0)) := by
        rw [← List.countP_append, List.take_append_drop]

/-- The key majority bound: a MAD-threshold pass with `k ≥ 1` keeps more
than half of the points — at least `⌊n/2⌋ + 1` of them. -/
theorem conservativePass_keeps_majority (xs ys : List ℚ) (k : ℚ)
    (hlen : xs.length = ys.length) (h5 : 5 ≤ xs.length) (hk : 1 ≤ k) :
    ys.length / 2 + 1 ≤ (conservativePass xs ys k).length := by
  have hne : xs ≠ [] := by
    intro h
    rw [h] at h5
    simp at h5
  set med := medianQ ys with hmed
  set mad := madQ ys with hmaddef
  set d := (sortedQ (absDevsQ ys)).getD (ys.length / 2) 0 with hd
  have hd0 : 0 ≤ d := sortedAbsDevs_getD_nonneg ys (ys.length / 2)
  have hmad_eps : epsQ ≤ mad := madQ_ge_eps ys
  have hmad0 : 0 ≤ mad := le_trans (le_of_lt epsQ_pos) hmad_eps
  -- d ≤ k * mad, by cases on the numerical-stability safeguard
  have hdk : d ≤ k * mad := by
    by_cases hraw : rawMadQ ys < epsQ
    · have hde : d * 1.4826 < epsQ := by
        rw [hd]
        unfold rawMadQ at hraw
        unfold absDevsQ
        unfold absDevsQ at hraw
        exact hraw
      nlinarith [hmad_eps, hmad0, hd0, hk]
    · have hmadraw : mad = d * 1.4826 := by
        rw [hmaddef]
        unfold madQ
        rw [if_neg hraw]
        unfold rawMadQ absDevsQ
        rfl
      rw [hmadraw]
      nlinarith [hd0, hk]
  -- the pass length as a charge count
  have hcount : (conservativePass xs ys k).length =
      ys.countP (fun v => decide (med - k * mad ≤ v ∧ v ≤ med + k * mad)) := by
    unfold conservativePass keepPairs
    rw [calcStats_eq xs ys hlen hne]
    rw [List.countP_eq_length_filter]
    exact length_filter_zip_snd (fun v => decide (med - k * mad ≤ v ∧ v ≤ med + k * mad))
      xs ys hlen
  -- at least m+1 charges have deviation ≤ d
  have hsorted : List.Sorted (· ≤ ·) (sortedQ (absDevsQ ys)) :=
    List.sorted_insertionSort _ _
  have hslen : (sortedQ (absDevsQ ys)).length = ys.length := by
    unfold sortedQ
    rw [(List.perm_insertionSort _ _).length_eq]
    simp [absDevsQ]
  have hm : ys.length / 2 < (sortedQ (absDevsQ ys)).length := by
    rw [hslen]
    omega
  have h1 : ys.length / 2 + 1 ≤
      (sortedQ (absDevsQ ys)).countP (fun a => decide (a ≤ d)) :=
    sorted_countP_le_getD _ hsorted _ hm
  have h2 : (sortedQ (absDevsQ ys)).countP (fun a => decide (a ≤ d)) =
      (absDevsQ ys).countP (fun a => decide (a ≤ d)) :=
    (List.perm_insertionSort _ _).countP_eq _
  have h3 : (absDevsQ ys).countP (fun a => decide (a ≤ d)) =
      ys.countP (fun v => decide (|v - med| ≤ d)) := by
    unfold absDevsQ
    rw [List.countP_map]
    rfl
  have h4 : ys.countP (fun v => decide (|v - med| ≤ d)) ≤
      ys.countP (fun v => decide (med - k * mad ≤ v ∧ v ≤ med + k * mad)) := by
    apply List.countP_mono_left
    intro v _ hv
    have hv' : |v - med| ≤ d := of_decide_eq_true hv
    have habs : |v - med| ≤ k * mad := le_trans hv' hdk
    have h' := abs_le.mp habs
    apply decide_eq_true
    constructor
    · linarith [h'.1]
    · linarith [h'.2]
  omega

/-- The two components of a filter result always have equal length. -/
theorem filter_components_length (xs ys : List ℚ) (k : ℚ)
    (hlen : xs.length = ys.length) :
    (FilterPowerLorentzianOutliers xs ys k).1.length =
      (FilterPowerLorentzianOutliers xs ys k).2.length := by
  simp only [FilterPowerLorentzianOutliers]
  split_ifs with h1 h2 h3
  · rfl
  · exact hlen
  · exact hlen
  · simp

/-- The filter's floor: with ≥ 5 equal-length input points the output keeps
at least 5 points. -/
theorem filter_length_ge_five (xs ys : List ℚ) (k : ℚ)
    (hlen : xs.length = ys.length) (h5 : 5 ≤ xs.length) :
    5 ≤ (FilterPowerLorentzianOutliers xs ys k).1.length := by
  simp only [FilterPowerLorentzianOutliers]
  split_ifs with h1 h2 h3
  · omega
  · exact h5
  · exact h5
  · push_neg at h3
    simpa using h3

/-! ## Claim theorems -/

/-- Claim C2: with equal-length non-empty inputs the robust-statistics
computation returns `valid = true` and a MAD at least `1e-12` (the raw MAD,
or the substituted std-dev / epsilon when the raw MAD falls below the
floor); with mismatched lengths or empty input it returns `valid = false`.
(`ℚ` has no NaN/∞, so "finite" and "never raises" hold structurally: the
model is a total function into the rationals.) -/
theorem c2_robust_statistics_floor (xs ys : List ℚ) :
    ((CalculateRobustStatisticsPowerLorentzian xs ys).valid = true ↔
      xs.length = ys.length ∧ xs ≠ []) ∧
    ((CalculateRobustStatisticsPowerLorentzian xs ys).valid = true →
      epsQ ≤ (CalculateRobustStatisticsPowerLorentzian xs ys).mad ∧
      (CalculateRobustStatisticsPowerLorentzian xs ys).mad =
        (if rawMadQ ys < epsQ then
          (if epsQ < stdDevQ ys then stdDevQ ys else epsQ) else rawMadQ ys)) := by
  refine ⟨stats_valid_iff xs ys, fun hv => ?_⟩
  obtain ⟨hlen, hne⟩ := (stats_valid_iff xs ys).mp hv
  rw [calcStats_eq xs ys hlen hne]
  exact ⟨madQ_ge_eps ys, rfl⟩

/-- Claim C3: for a profile of at least 5 equal-length points the outlier
filter returns at least 5 points, and whenever threshold filtering
(including the extreme-lenient retry) would leave fewer than 5 points the
filter abandons filtering and returns the original sequences unchanged. -/
theorem c3_filter_minimum_floor (xs ys : List ℚ) (k : ℚ)
    (hlen : xs.length = ys.length) (h5 : 5 ≤ xs.length) :
    5 ≤ (FilterPowerLorentzianOutliers xs ys k).1.length ∧
    ((filterPass xs ys k).length < 5 →
      FilterPowerLorentzianOutliers xs ys k = (xs, ys)) := by
  refine ⟨filter_length_ge_five xs ys k hlen h5, fun hlt => ?_⟩
  simp only [FilterPowerLorentzianOutliers]
  split_ifs with h1 h2
  · omega
  · rfl
  · rfl

/-- Claim C1: on any ≥5-point equal-length profile the estimator returns
exactly the first tier whose acceptance conditions hold — tier 1 when its
amplitude/width conditions hold (the NaN checks cannot fire over `ℚ`),
else tier 2 when its amplitude/width conditions hold, else tier 3 — with
`method_used` tagging that tier and `valid = true` always (tier 3 is
unconditional). -/
theorem c1_estimator_tier_priority (xs ys : List ℚ) (c ps : ℚ)
    (hlen : xs.length = ys.length) (h5 : 5 ≤ xs.length) :
    EstimatePowerLorentzianParameters xs ys c ps =
      (if tier1Accepts xs ys ps (CalculateRobustStatisticsPowerLorentzian xs ys) then
        tier1Estimate xs ys ps (CalculateRobustStatisticsPowerLorentzian xs ys)
      else if tier2Accepts ps (CalculateRobustStatisticsPowerLorentzian xs ys) then
        tier2Estimate ps (CalculateRobustStatisticsPowerLorentzian xs ys)
      else tier3Estimate c ps (CalculateRobustStatisticsPowerLorentzian xs ys)) ∧
    (EstimatePowerLorentzianParameters xs ys c ps).method_used =
      (if tier1Accepts xs ys ps (CalculateRobustStatisticsPowerLorentzian xs ys) then 1
       else if tier2Accepts ps (CalculateRobustStatisticsPowerLorentzian xs ys) then 2
       else 3) ∧
    (EstimatePowerLorentzianParameters xs ys c ps).valid = true := by
  have hne : xs ≠ [] := by
    intro h
    rw [h] at h5
    simp at h5
  have hv : (CalculateRobustStatisticsPowerLorentzian xs ys).valid = true :=
    (stats_valid_iff xs ys).mpr ⟨hlen, hne⟩
  have hguard : ¬(xs.length ≠ ys.length ∨ xs.length < 5) := by
    push_neg
    exact ⟨hlen, by omega⟩
  have hmain : EstimatePowerLorentzianParameters xs ys c ps =
      (if tier1Accepts xs ys ps (CalculateRobustStatisticsPowerLorentzian xs ys) then
        tier1Estimate xs ys ps (CalculateRobustStatisticsPowerLorentzian xs ys)
      else if tier2Accepts ps (CalculateRobustStatisticsPowerLorentzian xs ys) then
        tier2Estimate ps (CalculateRobustStatisticsPowerLorentzian xs ys)
      else tier3Estimate c ps (CalculateRobustStatisticsPowerLorentzian xs ys)) := by
    simp only [EstimatePowerLorentzianParameters]
    rw [if_neg hguard, if_neg (by simp [hv])]
  refine ⟨hmain, ?_, ?_⟩
  · rw [hmain]
    split_ifs <;> rfl
  · rw [hmain]
    split_ifs <;> rfl

/-- Claim C4: the conservative k = 2.5 pass never removes more than half of
the points — it always keeps at least `⌊n/2⌋ + 1` — so the spec's
"more than half removed" antecedent is unsatisfiable, and the conditional
"…then the filter re-filters the original data at k = 4.0 (with the final
< 5 floor)" holds.  The first conjunct records the unreachability; the
second is the claim as stated. -/
theorem c4_extreme_lenient_retry (xs ys : List ℚ)
    (hlen : xs.length = ys.length) (h5 : 5 ≤ xs.length) :
    xs.length < 2 * (conservativePass xs ys 2.5).length ∧
    (xs.length < 2 * (xs.length - (conservativePass xs ys 2.5).length) →
      FilterPowerLorentzianOutliers xs ys 2.5 = extremeRefilterResult xs ys) := by
  have h := conservativePass_keeps_majority xs ys 2.5 hlen h5 (by norm_num)
  rw [← hlen] at h
  exact ⟨by omega, fun hcontra => by omega⟩

/-- Claim C5 (amended): re-applying the filter to its own output with the
same threshold `k ≥ 1` can remove further points (see the counterexample),
but it never degrades the sample: the second application still returns at
least 5 points and removes fewer than half of the points of its input. -/
theorem c5_refilter_bounds (xs ys : List ℚ) (k : ℚ)
    (hlen : xs.length = ys.length) (h5 : 5 ≤ xs.length) (hk : 1 ≤ k) :
    5 ≤ (FilterPowerLorentzianOutliers
          (FilterPowerLorentzianOutliers xs ys k).1
          (FilterPowerLorentzianOutliers xs ys k).2 k).1.length ∧
    (FilterPowerLorentzianOutliers xs ys k).1.length <
      2 * (FilterPowerLorentzianOutliers
          (FilterPowerLorentzianOutliers xs ys k).1
          (FilterPowerLorentzianOutliers xs ys k).2 k).1.length := by
  have hF1len : (FilterPowerLorentzianOutliers xs ys k).1.length =
      (FilterPowerLorentzianOutliers xs ys k).2.length :=
    filter_components_length xs ys k hlen
  have hF15 : 5 ≤ (FilterPowerLorentzianOutliers xs ys k).1.length :=
    filter_length_ge_five xs ys k hlen h5
  refine ⟨filter_length_ge_five _ _ k hF1len hF15, ?_⟩
  have hmaj := conservativePass_keeps_majority
    (FilterPowerLorentzianOutliers xs ys k).1 (FilterPowerLorentzianOutliers xs ys k).2
    k hF1len hF15 hk
  rw [← hF1len] at hmaj
  have hpass : filterPass (FilterPowerLorentzianOutliers xs ys k).1
      (FilterPowerLorentzianOutliers xs ys k).2 k =
      conservativePass (FilterPowerLorentzianOutliers xs ys k).1
        (FilterPowerLorentzianOutliers xs ys k).2 k := by
    simp only [filterPass]
    rw [if_neg (by omega)]
  have hne : (FilterPowerLorentzianOutliers xs ys k).1 ≠ [] := by
    intro h
    rw [h] at hF15
    simp at hF15
  have hv : (CalculateRobustStatisticsPowerLorentzian
      (FilterPowerLorentzianOutliers xs ys k).1
      (FilterPowerLorentzianOutliers xs ys k).2).valid = true :=
    (stats_valid_iff _ _).mpr ⟨hF1len, hne⟩
  conv_rhs =>
    rw [FilterPowerLorentzianOutliers]
  rw [if_neg (by push_neg; exact ⟨hF1len, by omega⟩), if_neg (by simp [hv])]
  rw [hpass]
  by_cases hp : (conservativePass (FilterPowerLorentzianOutliers xs ys k).1
      (FilterPowerLorentzianOutliers xs ys k).2 k).length < 5
  · rw [if_pos hp]
    dsimp only
    omega
  · rw [if_neg hp]
    simp only [List.length_map]
    omega

/-- Claim C8: with mismatched position/charge lengths or fewer than 5 points
the 1-D fit returns failure for every solver and covariance oracle; in the
model `none` is "returned `false` with every out-parameter untouched"
(the C++ early return at lines 406–411 writes none of them), and the model
is a total function, so nothing is raised. -/
theorem c8_insufficient_input_guard (solver : Solver) (cov : CovOracle) (env : EnvConfig)
    (xs ys : List ℚ) (c ps : ℚ) (ef : Bool)
    (h : xs.length ≠ ys.length ∨ xs.length < 5) :
    FitPowerLorentzianCeres solver cov env xs ys c ps ef = none := by
  unfold FitPowerLorentzianCeres FitPowerLorentzianCeresGen
  rw [if_pos h]

/-- Claim C9: with all three lengths equal, at least 5 samples and removal
enabled, the 2-D outlier remover flags sample `i` iff
`|charge_i − median| > k·MAD`; when the flagged count exceeds `n − 5` it
returns the original triples with `outliers_removed = 0` and
`filtering_applied = false`, otherwise exactly the unflagged triples with
the flagged count and `filtering_applied = true` (and `success = true`
either way). -/
theorem c9_outlier_remover_behaviour (xc yc qc : List ℚ) (k : ℚ)
    (h1 : xc.length = yc.length) (h2 : xc.length = qc.length) (h5 : 5 ≤ qc.length) :
    (∀ q : ℚ, chargeFlagged (CalculateRobustStatisticsPowerLorentzian xc qc).median
        (CalculateRobustStatisticsPowerLorentzian xc qc).mad k q = true ↔
      k * (CalculateRobustStatisticsPowerLorentzian xc qc).mad
        < |q - (CalculateRobustStatisticsPowerLorentzian xc qc).median|) ∧
    RemovePowerLorentzianOutliers xc yc qc true k =
      (if qc.length - qc.countP (chargeFlagged
            (CalculateRobustStatisticsPowerLorentzian xc qc).median
            (CalculateRobustStatisticsPowerLorentzian xc qc).mad k) < 5 then
        { filtered_x_coords := xc, filtered_y_coords := yc, filtered_charge_values := qc,
          outliers_removed := 0, filtering_applied := false, success := true }
      else
        { filtered_x_coords := ((zip3 xc yc qc).filter (fun p =>
            !chargeFlagged (CalculateRobustStatisticsPowerLorentzian xc qc).median
              (CalculateRobustStatisticsPowerLorentzian xc qc).mad k p.q)).map
            (fun p => p.x),
          filtered_y_coords := ((zip3 xc yc qc).filter (fun p =>
            !chargeFlagged (CalculateRobustStatisticsPowerLorentzian xc qc).median
              (CalculateRobustStatisticsPowerLorentzian xc qc).mad k p.q)).map
            (fun p => p.y),
          filtered_charge_values := ((zip3 xc yc qc).filter (fun p =>
            !chargeFlagged (CalculateRobustStatisticsPowerLorentzian xc qc).median
              (CalculateRobustStatisticsPowerLorentzian xc qc).mad k p.q)).map
            (fun p => p.q),
          outliers_removed := qc.countP (chargeFlagged
            (CalculateRobustStatisticsPowerLorentzian xc qc).median
            (CalculateRobustStatisticsPowerLorentzian xc qc).mad k),
          filtering_applied := true, success := true }) := by
  have hne : xc ≠ [] := by
    intro h
    rw [h] at h2
    simp at h2
    omega
  have hv : (CalculateRobustStatisticsPowerLorentzian xc qc).valid = true :=
    (stats_valid_iff xc qc).mpr ⟨h2, hne⟩
  refine ⟨fun q => by simp [chargeFlagged], ?_⟩
  simp only [RemovePowerLorentzianOutliers]
  rw [if_neg (show ¬(xc.length ≠ yc.length ∨ xc.length ≠ qc.length) from by
    push_neg; exact ⟨h1, h2⟩)]
  rw [if_neg (show ¬qc.length < 5 from by omega)]
  rw [if_neg (show ¬((CalculateRobustStatisticsPowerLorentzian xc qc).valid = false) from by
    simp [hv])]
  rfl

/-- The success flag of one diagonal branch report equals the sub-fit
success predicate. -/
theorem runDiagFit_success (solver : Solver) (cov : CovOracle) (env : EnvConfig)
    (data : List (ℚ × ℚ)) (dps : ℚ) (ef : Bool) :
    (runDiagFit solver cov env data dps ef).fit_successful =
      diagDataFitSucceeds solver cov env data dps ef := by
  unfold runDiagFit diagDataFitSucceeds
  split_ifs <;> rfl

/-- Claim C7: the 2-D coordinator reports aggregate success exactly when
both the selected-row fit and the selected-column fit succeed, and the
diagonal coordinator exactly when all four diagonal sub-fits succeed —
logical AND, so no degraded partial result is reported as success. -/
theorem c7_aggregate_success_is_conjunction (solver : Solver) (cov : CovOracle)
    (env : EnvConfig) (xc yc qc : List ℚ) (cx cy ps : ℚ) (ef : Bool)
    (h1 : xc.length = yc.length) (h2 : xc.length = qc.length) (h5 : 5 ≤ xc.length) :
    ((Fit2DPowerLorentzianCeres solver cov env xc yc qc cx cy ps ef).fit_successful =
      (xAxisFitSucceeds solver cov env xc yc qc cx cy ps ef &&
        yAxisFitSucceeds solver cov env xc yc qc cx cy ps ef)) ∧
    ((FitDiagonalPowerLorentzianCeres solver cov env xc yc qc cx cy ps ef).fit_successful =
      (diagDataFitSucceeds solver cov env
          (mainDiagData (zip3 (diagFilteredPoints xc yc qc ef).1
            (diagFilteredPoints xc yc qc ef).2.1 (diagFilteredPoints xc yc qc ef).2.2)
            cx cy (ps * 0.5)) (ps * 1.41421356237) ef &&
        diagDataFitSucceeds solver cov env
          (mainDiagData (zip3 (diagFilteredPoints xc yc qc ef).1
            (diagFilteredPoints xc yc qc ef).2.1 (diagFilteredPoints xc yc qc ef).2.2)
            cx cy (ps * 0.5)) (ps * 1.41421356237) ef &&
        diagDataFitSucceeds solver cov env
          (secDiagData (zip3 (diagFilteredPoints xc yc qc ef).1
            (diagFilteredPoints xc yc qc ef).2.1 (diagFilteredPoints xc yc qc ef).2.2)
            cx cy (ps * 0.5)) (ps * 1.41421356237) ef &&
        diagDataFitSucceeds solver cov env
          (secDiagData (zip3 (diagFilteredPoints xc yc qc ef).1
            (diagFilteredPoints xc yc qc ef).2.1 (diagFilteredPoints xc yc qc ef).2.2)
            cx cy (ps * 0.5)) (ps * 1.41421356237) ef)) := by
  constructor
  · simp only [Fit2DPowerLorentzianCeres]
    rw [if_neg (by push_neg; exact ⟨h1, h2⟩), if_neg (by omega)]
    unfold xAxisFitSucceeds yAxisFitSucceeds
    cases hrow : selectedRowData (zip3 xc yc qc) cy ps <;>
      cases hcol : selectedColData (zip3 xc yc qc) cx ps <;>
        simp [hrow, hcol]
  · simp only [FitDiagonalPowerLorentzianCeres]
    rw [if_neg (by push_neg; exact ⟨h1, h2⟩), if_neg (by omega)]
    simp only [runDiagFit_success]

/-- Overriding loss kind and scale does not change one configuration
attempt: the solver never sees those fields. -/
theorem attemptConfig_setLoss (solver : Solver) (cov : CovOracle) (env : EnvConfig)
    (cx cy : List ℚ) (unc : ℚ) (est : PowerLorentzianParameterEstimates) (ps : ℚ)
    (cfg : PowerLorentzianFittingConfig) (lf : String) (lp : ℚ) :
    attemptConfig solver cov env cx cy unc est ps (setLoss cfg lf lp) =
      attemptConfig solver cov env cx cy unc est ps cfg := rfl

/-- Loss overriding is dead through the whole configuration loop. -/
theorem tryConfigs_setLoss (solver : Solver) (cov : CovOracle) (env : EnvConfig)
    (cx cy : List ℚ) (unc : ℚ) (est : PowerLorentzianParameterEstimates) (ps : ℚ)
    (lf : String) (lp : ℚ) :
    ∀ cfgs : List PowerLorentzianFittingConfig,
      tryConfigs solver cov env cx cy unc est ps (cfgs.map (fun cc => setLoss cc lf lp)) =
        tryConfigs solver cov env cx cy unc est ps cfgs
  | [] => rfl
  | cfg :: rest => by
    simp only [List.map_cons, tryConfigs, attemptConfig_setLoss]
    cases attemptConfig solver cov env cx cy unc est ps cfg with
    | some r => rfl
    | none => exact tryConfigs_setLoss solver cov env cx cy unc est ps lf lp rest

/-- Loss overriding is dead through the dataset loop. -/
theorem tryDatasets_setLoss (cf : PowerLorentzianParameterEstimates →
      List PowerLorentzianFittingConfig)
    (solver : Solver) (cov : CovOracle) (env : EnvConfig) (c ps : ℚ)
    (lf : String) (lp : ℚ) :
    ∀ ds : List (List ℚ × List ℚ),
      tryDatasets (fun e => (cf e).map (fun cc => setLoss cc lf lp))
          solver cov env c ps ds =
        tryDatasets cf solver cov env c ps ds
  | [] => rfl
  | d :: rest => by
    simp only [tryDatasets]
    split_ifs with hd hv
    · exact tryDatasets_setLoss cf solver cov env c ps lf lp rest
    · exact tryDatasets_setLoss cf solver cov env c ps lf lp rest
    · rw [tryConfigs_setLoss]
      cases tryConfigs solver cov env d.1 d.2
          (CalculatePowerLorentzianUncertainty env (listMax d.2))
          (EstimatePowerLorentzianParameters d.1 d.2 c ps) ps
          (cf (EstimatePowerLorentzianParameters d.1 d.2 c ps)) with
      | some r => rfl
      | none => exact tryDatasets_setLoss cf solver cov env c ps lf lp rest

/-- Claim C10: the optimisation problem handed to the solver is identical
across the robust-loss kind and loss-scale fields of the configurations:
every residual block carries the null loss (`loss = none` in each solve
call, modelling the `nullptr` of `AddResidualBlock`), each stage call is
invariant under overriding a configuration's loss fields, and the whole
1-D orchestrator run — hence the fitted parameters — is unchanged when
every configuration's loss kind/scale is overridden arbitrarily. -/
theorem c10_loss_settings_have_no_effect (lf : String) (lp : ℚ)
    (solver : Solver) (cov : CovOracle) (env : EnvConfig)
    (xs ys : List ℚ) (c ps : ℚ) (ef : Bool)
    (pts : List (ℚ × ℚ)) (mc unc : ℚ) (est : PowerLorentzianParameterEstimates)
    (cfg : PowerLorentzianFittingConfig) (c1 : SolveCall) (p : Params5) :
    FitPowerLorentzianCeresGen
        (fun e => (powerLorentzianConfigs e).map (fun cc => setLoss cc lf lp))
        solver cov env xs ys c ps ef =
      FitPowerLorentzianCeres solver cov env xs ys c ps ef ∧
    stage1Call env pts mc unc est ps (setLoss cfg lf lp) =
      stage1Call env pts mc unc est ps cfg ∧
    (stage1Call env pts mc unc est ps cfg).loss = none ∧
    (stage2Call c1 p ps).loss = c1.loss ∧
    (fallbackCall c1 p).loss = c1.loss := by
  refine ⟨?_, rfl, rfl, rfl, rfl⟩
  unfold FitPowerLorentzianCeres FitPowerLorentzianCeresGen
  split_ifs
  · rfl
  · exact tryDatasets_setLoss powerLorentzianConfigs solver cov env c ps lf lp _

/-- Any accepted configuration attempt reports
`chi2red = 2 × final_cost / max(1, n_accepted − 5)` over its accepted
dataset. -/
theorem attemptConfig_chi2 (solver : Solver) (cov : CovOracle) (env : EnvConfig)
    (cx cy : List ℚ) (unc : ℚ) (est : PowerLorentzianParameterEstimates) (ps : ℚ)
    (cfg : PowerLorentzianFittingConfig) (s : AcceptedFit)
    (h : attemptConfig solver cov env cx cy unc est ps cfg = some s) :
    s.chi2red = s.final_cost * 2.0 / ((max 1 ((s.clean_x.length : ℤ) - 5) : ℤ) : ℚ) := by
  simp only [attemptConfig] at h
  split at h <;> split at h <;>
    first
      | (rw [Option.some.injEq] at h; rw [← h]; rfl)
      | exact absurd h (by simp)

/-- The chi-square relation holds for whatever the configuration loop
returns. -/
theorem tryConfigs_chi2 (solver : Solver) (cov : CovOracle) (env : EnvConfig)
    (cx cy : List ℚ) (unc : ℚ) (est : PowerLorentzianParameterEstimates) (ps : ℚ) :
    ∀ (cfgs : List PowerLorentzianFittingConfig) (s : AcceptedFit),
      tryConfigs solver cov env cx cy unc est ps cfgs = some s →
      s.chi2red = s.final_cost * 2.0 / ((max 1 ((s.clean_x.length : ℤ) - 5) : ℤ) : ℚ)
  | [], s, h => absurd h (by simp [tryConfigs])
  | cfg :: rest, s, h => by
    simp only [tryConfigs] at h
    cases hc : attemptConfig solver cov env cx cy unc est ps cfg with
    | some r =>
      rw [hc] at h
      simp only [Option.some.injEq] at h
      rw [← h]
      exact attemptConfig_chi2 solver cov env cx cy unc est ps cfg r hc
    | none =>
      rw [hc] at h
      exact tryConfigs_chi2 solver cov env cx cy unc est ps rest s h

/-- The chi-square relation holds for whatever the dataset loop returns. -/
theorem tryDatasets_chi2 (cf : PowerLorentzianParameterEstimates →
      List PowerLorentzianFittingConfig)
    (solver : Solver) (cov : CovOracle) (env : EnvConfig) (c ps : ℚ) :
    ∀ (ds : List (List ℚ × List ℚ)) (s : AcceptedFit),
      tryDatasets cf solver cov env c ps ds = some s →
      s.chi2red = s.final_cost * 2.0 / ((max 1 ((s.clean_x.length : ℤ) - 5) : ℤ) : ℚ)
  | [], s, h => absurd h (by simp [tryDatasets])
  | d :: rest, s, h => by
    simp only [tryDatasets] at h
    split_ifs at h with hd hv
    · exact tryDatasets_chi2 cf solver cov env c ps rest s h
    · exact tryDatasets_chi2 cf solver cov env c ps rest s h
    · cases hc : tryConfigs solver cov env d.1 d.2
          (CalculatePowerLorentzianUncertainty env (listMax d.2))
          (EstimatePowerLorentzianParameters d.1 d.2 c ps) ps
          (cf (EstimatePowerLorentzianParameters d.1 d.2 c ps)) with
      | some r =>
        rw [hc] at h
        simp only [Option.some.injEq] at h
        rw [← h]
        exact tryConfigs_chi2 solver cov env d.1 d.2 _ _ ps _ r hc
      | none =>
        rw [hc] at h
        exact tryDatasets_chi2 cf solver cov env c ps rest s h

/-- Every successful 1-D orchestrator run reports
`chi2red = 2 × final_cost / max(1, n_accepted − 5)` for the accepted
dataset it carries. -/
theorem fitPL_chi2 (solver : Solver) (cov : CovOracle) (env : EnvConfig)
    (xs ys : List ℚ) (c ps : ℚ) (ef : Bool) (s : AcceptedFit)
    (h : FitPowerLorentzianCeres solver cov env xs ys c ps ef = some s) :
    s.chi2red = s.final_cost * 2.0 / ((max 1 ((s.clean_x.length : ℤ) - 5) : ℤ) : ℚ) := by
  unfold FitPowerLorentzianCeres FitPowerLorentzianCeresGen at h
  split_ifs at h
  all_goals
    first
      | exact absurd h (by simp)
      | exact tryDatasets_chi2 powerLorentzianConfigs solver cov env c ps _ s h

/-- Claim C6 (amended): for a successful X-axis fit inside the 2-D
coordinator, the reported reduced chi-square equals
`2 × final_cost / max(1, n_accepted − 5)` over the **accepted (possibly
outlier-filtered) dataset** and is non-negative whenever the solver's cost
is, while the reported degrees of freedom equal `max(1, n_row − 5)` over
the **full selected row** — two different `n` when filtering reduced the
accepted dataset. -/
theorem c6_chi2red_and_dof (solver : Solver) (cov : CovOracle) (env : EnvConfig)
    (xc yc qc : List ℚ) (cx cy ps : ℚ) (ef : Bool)
    (l : List (ℚ × ℚ)) (s : AcceptedFit)
    (h1 : xc.length = yc.length) (h2 : xc.length = qc.length) (h5 : 5 ≤ xc.length)
    (hrow : selectedRowData (zip3 xc yc qc) cy ps = some l)
    (hfit : FitPowerLorentzianCeres solver cov env (l.map Prod.fst) (l.map Prod.snd)
      cx ps ef = some s)
    (hcost : 0 ≤ s.final_cost) :
    (Fit2DPowerLorentzianCeres solver cov env xc yc qc cx cy ps ef).x_chi2red =
      s.final_cost * 2.0 / ((max 1 ((s.clean_x.length : ℤ) - 5) : ℤ) : ℚ) ∧
    0 ≤ (Fit2DPowerLorentzianCeres solver cov env xc yc qc cx cy ps ef).x_chi2red ∧
    (Fit2DPowerLorentzianCeres solver cov env xc yc qc cx cy ps ef).x_dof =
      max 1 ((l.length : ℤ) - 5) := by
  have hchi := fitPL_chi2 solver cov env (l.map Prod.fst) (l.map Prod.snd) cx ps ef s hfit
  have hx : (Fit2DPowerLorentzianCeres solver cov env xc yc qc cx cy ps ef).x_chi2red =
      s.chi2red := by
    simp only [Fit2DPowerLorentzianCeres]
    rw [if_neg (by push_neg; exact ⟨h1, h2⟩), if_neg (by omega)]
    simp [hrow, hfit, getQ]
  have hdof : (Fit2DPowerLorentzianCeres solver cov env xc yc qc cx cy ps ef).x_dof =
      max 1 ((l.length : ℤ) - 5) := by
    simp only [Fit2DPowerLorentzianCeres]
    rw [if_neg (by push_neg; exact ⟨h1, h2⟩), if_neg (by omega)]
    simp [hrow]
  have hDpos : (0 : ℚ) < ((max 1 ((s.clean_x.length : ℤ) - 5) : ℤ) : ℚ) := by
    have h1' : (1 : ℤ) ≤ max 1 ((s.clean_x.length : ℤ) - 5) := le_max_left _ _
    exact_mod_cast lt_of_lt_of_le Int.zero_lt_one h1'
  refine ⟨by rw [hx, hchi], ?_, hdof⟩
  rw [hx, hchi]
  apply div_nonneg (by linarith) (le_of_lt hDpos)


/-! ## Concrete instances: counterexamples and witnesses

The Batteries `Rat` operations are `@[irreducible]`, which only guards the
elaborator's unfolding; the kernel checks the resulting `decide` proofs by
full reduction either way.  The attribute is restored locally so concrete
instances of the executable model evaluate. -/

section ConcreteInstances

set_option allowUnsafeReducibility true

attribute [local semireducible] Rat.mul Rat.add Rat.sub Rat.div Rat.neg Rat.inv Rat.blt
  Rat.normalize Rat.ofScientific

set_option maxRecDepth 16000

set_option exponentiation.threshold 400

/-- Counterexample to claim C5 as stated: on the 12-point profile
`(c5X, c5Y)` the k = 2.5 filter keeps 8 points (dropping the three
≥1000 charges), and re-applying it to that output removes the charge 26 as
well — the filter's output is not a fixed point of the filter. -/
theorem c5_idempotence_counterexample :
    FilterPowerLorentzianOutliers
        (FilterPowerLorentzianOutliers c5X c5Y 2.5).1
        (FilterPowerLorentzianOutliers c5X c5Y 2.5).2 2.5 ≠
      FilterPowerLorentzianOutliers c5X c5Y 2.5 := by decide

/-- Witness for the amended claim C5 at the profile
`([1,…,5], [1,2,5,2,1])` with k = 2.5. -/
theorem c5_refilter_bounds_witness :
    5 ≤ (FilterPowerLorentzianOutliers
          (FilterPowerLorentzianOutliers [1, 2, 3, 4, 5] [1, 2, 5, 2, 1] 2.5).1
          (FilterPowerLorentzianOutliers [1, 2, 3, 4, 5] [1, 2, 5, 2, 1] 2.5).2 2.5).1.length ∧
    (FilterPowerLorentzianOutliers [1, 2, 3, 4, 5] [1, 2, 5, 2, 1] 2.5).1.length <
      2 * (FilterPowerLorentzianOutliers
          (FilterPowerLorentzianOutliers [1, 2, 3, 4, 5] [1, 2, 5, 2, 1] 2.5).1
          (FilterPowerLorentzianOutliers [1, 2, 3, 4, 5] [1, 2, 5, 2, 1] 2.5).2 2.5).1.length :=
  c5_refilter_bounds [1, 2, 3, 4, 5] [1, 2, 5, 2, 1] 2.5 (by decide) (by decide) (by norm_num)

/-- Witness for claim C1: on `([1,…,5], [1,2,5,2,1])` tier 1 accepts and is
the tier returned. -/
theorem c1_estimator_tier_priority_witness :
    (EstimatePowerLorentzianParameters [1, 2, 3, 4, 5] [1, 2, 5, 2, 1] 0 1).method_used = 1 ∧
    (EstimatePowerLorentzianParameters [1, 2, 3, 4, 5] [1, 2, 5, 2, 1] 0 1).valid = true := by
  have h := c1_estimator_tier_priority [1, 2, 3, 4, 5] [1, 2, 5, 2, 1] 0 1 (by decide) (by decide)
  refine ⟨?_, h.2.2⟩
  rw [h.2.1]
  decide

/-- Witness for claim C3 at the profile `([1,…,5], [1, 2, 5, 2, 1])`. -/
theorem c3_filter_minimum_floor_witness :
    5 ≤ (FilterPowerLorentzianOutliers [1, 2, 3, 4, 5] [1, 2, 5, 2, 1] 2.5).1.length :=
  (c3_filter_minimum_floor [1, 2, 3, 4, 5] [1, 2, 5, 2, 1] 2.5 (by decide) (by decide)).1

/-- Witness for claim C4 at the profile `(c5X, c5Y)`: the conservative pass
keeps 8 of the 12 points, more than half. -/
theorem c4_extreme_lenient_retry_witness :
    c5X.length < 2 * (conservativePass c5X c5Y 2.5).length :=
  (c4_extreme_lenient_retry c5X c5Y (by decide) (by decide)).1

/-- Witness for claim C8: a 3-point profile is rejected. -/
theorem c8_insufficient_input_guard_witness :
    FitPowerLorentzianCeres failSolver covNone env0 [1, 2, 3] [1, 2, 3] 0 1 true = none :=
  c8_insufficient_input_guard failSolver covNone env0 [1, 2, 3] [1, 2, 3] 0 1 true
    (Or.inr (by decide))

/-- Witness for claim C9 at six samples with one huge charge spike: the
spike (charge 100) is flagged and removed, five samples remain. -/
theorem c9_outlier_remover_behaviour_witness :
    (RemovePowerLorentzianOutliers [1, 2, 3, 4, 5, 6] [0, 0, 0, 0, 0, 0]
      [1, 2, 3, 2, 1, 100] true 2.5).outliers_removed = 1 ∧
    (RemovePowerLorentzianOutliers [1, 2, 3, 4, 5, 6] [0, 0, 0, 0, 0, 0]
      [1, 2, 3, 2, 1, 100] true 2.5).filtering_applied = true ∧
    (RemovePowerLorentzianOutliers [1, 2, 3, 4, 5, 6] [0, 0, 0, 0, 0, 0]
      [1, 2, 3, 2, 1, 100] true 2.5).filtered_charge_values = [1, 2, 3, 2, 1] := by
  have h := (c9_outlier_remover_behaviour [1, 2, 3, 4, 5, 6] [0, 0, 0, 0, 0, 0]
    [1, 2, 3, 2, 1, 100] 2.5 (by decide) (by decide) (by decide)).2
  refine ⟨?_, ?_, ?_⟩ <;> rw [h] <;> decide

/-- Witness for claim C7 on a 5-point row through y = 0 under the
convergent solver oracle: the row fit succeeds, no ≥5-point column exists,
and the aggregate flags reflect the conjunctions (2-D aggregate false
because the y-axis fit is missing). -/
theorem c7_aggregate_success_is_conjunction_witness :
    ((Fit2DPowerLorentzianCeres constSolver covNone env0 [1, 2, 3, 4, 5] [0, 0, 0, 0, 0]
        [1, 2, 3, 2, 1] 3 0 1 false).fit_successful =
      (xAxisFitSucceeds constSolver covNone env0 [1, 2, 3, 4, 5] [0, 0, 0, 0, 0]
          [1, 2, 3, 2, 1] 3 0 1 false &&
        yAxisFitSucceeds constSolver covNone env0 [1, 2, 3, 4, 5] [0, 0, 0, 0, 0]
          [1, 2, 3, 2, 1] 3 0 1 false)) ∧
    xAxisFitSucceeds constSolver covNone env0 [1, 2, 3, 4, 5] [0, 0, 0, 0, 0]
      [1, 2, 3, 2, 1] 3 0 1 false = true ∧
    (Fit2DPowerLorentzianCeres constSolver covNone env0 [1, 2, 3, 4, 5] [0, 0, 0, 0, 0]
      [1, 2, 3, 2, 1] 3 0 1 false).fit_successful = false := by
  have h := c7_aggregate_success_is_conjunction constSolver covNone env0
    [1, 2, 3, 4, 5] [0, 0, 0, 0, 0] [1, 2, 3, 2, 1] 3 0 1 false
    (by decide) (by decide) (by decide)
  exact ⟨h.1, by decide, by decide⟩

/-- Counterexample to claim C6 as stated: on the one-row cloud
`(c6X, c6Y, c6Q)` with outlier filtering enabled, the accepted dataset has
n = 8 points (cost 1 under `constSolver`) and the reported reduced
chi-square is `2·1/max(1, 8−5) = 2/3`, but the reported degrees of freedom
are `max(1, 12−5) = 7 ≠ max(1, 8−5)` — the two reports use different `n`. -/
theorem c6_dof_counterexample :
    (FitPowerLorentzianCeres constSolver covNone env0 c6X c6Q 100 1 true).map
        (fun s => (s.clean_x.length, s.final_cost, s.chi2red)) = some (8, 1, 2/3) ∧
    (Fit2DPowerLorentzianCeres constSolver covNone env0 c6X c6Y c6Q 100 0 1 true).x_chi2red
      = 2 * 1 / ((max 1 ((8 : ℤ) - 5) : ℤ) : ℚ) ∧
    ¬((Fit2DPowerLorentzianCeres constSolver covNone env0 c6X c6Y c6Q 100 0 1
          true).x_chi2red = 2 * 1 / ((max 1 ((8 : ℤ) - 5) : ℤ) : ℚ) ∧
      (Fit2DPowerLorentzianCeres constSolver covNone env0 c6X c6Y c6Q 100 0 1
          true).x_dof = max 1 ((8 : ℤ) - 5)) := by
  refine ⟨by decide, by decide, ?_⟩
  intro hc
  exact absurd hc.2 (by decide)

/-- Witness for the amended claim C6 on the same cloud: the reported
x-axis reduced chi-square is non-negative and the reported degrees of
freedom equal `max(1, 12−5) = 7` for the 12-point selected row. -/
theorem c6_chi2red_and_dof_witness :
    0 ≤ (Fit2DPowerLorentzianCeres constSolver covNone env0 c6X c6Y c6Q 100 0 1
        true).x_chi2red ∧
    (Fit2DPowerLorentzianCeres constSolver covNone env0 c6X c6Y c6Q 100 0 1
        true).x_dof = 7 := by
  have key : (selectedRowData (zip3 c6X c6Y c6Q) 0 1).map
      (fun l => ((FitPowerLorentzianCeres constSolver covNone env0 (l.map Prod.fst)
        (l.map Prod.snd) 100 1 true).map (fun s => s.final_cost), l.length)) =
      some (some 1, 12) := by decide
  cases hrow : selectedRowData (zip3 c6X c6Y c6Q) 0 1 with
  | none =>
    rw [hrow] at key
    exact absurd key (by simp)
  | some l =>
    rw [hrow] at key
    simp only [Option.map_some'] at key
    cases hfit : FitPowerLorentzianCeres constSolver covNone env0 (l.map Prod.fst)
        (l.map Prod.snd) 100 1 true with
    | none =>
      rw [hfit] at key
      simp at key
    | some s =>
      rw [hfit] at key
      simp only [Option.map_some', Option.some.injEq, Prod.mk.injEq] at key
      obtain ⟨hcost, hlen⟩ := key
      have h := c6_chi2red_and_dof constSolver covNone env0 c6X c6Y c6Q 100 0 1 true l s
        (by decide) (by decide) (by decide) hrow hfit (by rw [hcost]; norm_num)
      refine ⟨h.2.1, ?_⟩
      rw [h.2.2, hlen]
      decide

end ConcreteInstances
